import Mathlib

/-!
Shallow embedding of the domain-tracking and notification-batching core of
crtmon (Go sources `tracking.go` and `send.go`), together with theorems
settling the specification claims about it.

Modelling conventions:

* Go `time.Time` instants are modelled as `Int` seconds on a fixed-offset
  clock.  `t.Format("2006-01-02")`, the calendar date of an instant, is
  modelled as floor division by 86400, and `AddDate(0, 0, -1)` (yesterday)
  as subtracting one from that calendar date.
* Go `map[string]int` / `map[string]*DomainEntry` values are modelled as
  association lists; a read of a missing key yields the zero value, as in Go.
* Go's `time.Now()` is called several times inside one critical section in
  the source; all those calls are modelled by a single `now` parameter.
* `dt.save()` performs file I/O; the embedding counts how many times each
  operation invokes it (the `saves` field of each result), which is the
  observable the persistence claims are about.
-/

namespace Crtmon

/-- Instants: seconds on a fixed-offset clock (models Go `time.Time`). -/
abbrev Time := Int

/-- Calendar date of an instant: models `t.Format("2006-01-02")` on a
fixed-offset clock (one date per 86400-second block). -/
def dateOf (t : Time) : Int := Int.fdiv t 86400

/-- `7 * 24 * time.Hour` in seconds. -/
def sevenDays : Int := 7 * 24 * 60 * 60

/-- `strings.TrimSuffix(domain, ".")`: drops one trailing dot if present
(implemented on the character list so that it evaluates). -/
def trimDotSuffix (l : List Char) : List Char :=
  if l.getLast? = some '.' then l.dropLast else l

/-- `strings.ToLower(strings.TrimSuffix(domain, "."))`, the normalization
applied by every `DomainTracker` method (ASCII lowering, which is what
`strings.ToLower` does on hostname characters). -/
def normalizeDomain (s : String) : String := ⟨(trimDotSuffix s.data).map Char.toLower⟩

/-- `DomainEntry` from tracking.go.  `dailyHits` (Go `map[string]int`, keyed
by formatted date) is an association list keyed by `dateOf`-dates; Go's `nil`
map reads like the empty map, so both are modelled as `[]`.
`lastHighHitDate` is a date string in Go with zero value `""`; it is modelled
as `Option Int` with `none` for `""`. -/
structure DomainEntry where
  domain : String
  hitCount : Int
  firstSeen : Time
  lastSeen : Time
  lastNotified : Time
  resolved : Bool
  blacklisted : Bool
  blacklistedDate : Time
  dailyHits : List (Int × Int)
  highHitDays : Int
  lastHighHitDate : Option Int
  httpStatusCode : Int
  responseSize : Int
  responseLineCount : Int
  responseWordCount : Int
  riskLabels : List String
  riskScore : Int
  certIssuer : String
  previousIssuer : String
  statusCodeHistory : List Int
  isDuplicate : Bool
deriving Repr, DecidableEq

/-- Read of `m[d]` on a Go `map[string]int`: zero when absent. -/
def getHits : List (Int × Int) → Int → Int
  | [], _ => 0
  | (k, c) :: rest, d => if k = d then c else getHits rest d

/-- Write `m[d] = v` on a Go map modelled as an association list. -/
def setHits : List (Int × Int) → Int → Int → List (Int × Int)
  | [], d, v => [(d, v)]
  | (k, c) :: rest, d, v =>
    if k = d then (d, v) :: rest else (k, c) :: setHits rest d v

/-- `updateDailyHits` from tracking.go: increments `dailyHits[today]`, runs
the blacklist-escalation rule, and calls `dt.save()` once (the `Nat`
component counts `save()` calls).  The Go nil-map guard is the identity in
the association-list model. -/
def updateDailyHits (now : Time) (e : DomainEntry) : DomainEntry × Nat :=
  let today := dateOf now
  let cnt := getHits e.dailyHits today + 1
  let e1 := { e with dailyHits := setHits e.dailyHits today cnt }
  let e2 :=
    if 10 < cnt then
      if e1.lastHighHitDate ≠ some today then
        let yesterday := today - 1
        let hhd := if e1.lastHighHitDate = some yesterday then e1.highHitDays + 1 else 1
        let e' := { e1 with highHitDays := hhd, lastHighHitDate := some today }
        if 3 ≤ hhd then { e' with blacklisted := true, blacklistedDate := now } else e'
      else e1
    else e1
  (e2, 1)

/-- The tracker's `domains` map (`map[string]*DomainEntry`). -/
abbrev Tracker := List (String × DomainEntry)

/-- Map read `dt.domains[d]`. -/
def lookupEntry : Tracker → String → Option DomainEntry
  | [], _ => none
  | (k, v) :: rest, d => if k = d then some v else lookupEntry rest d

/-- Map write `dt.domains[d] = e` (replace or add). -/
def insertEntry : Tracker → String → DomainEntry → Tracker
  | [], d, e => [(d, e)]
  | (k, v) :: rest, d, e =>
    if k = d then (d, e) :: rest else (k, v) :: insertEntry rest d e

/-- The entry created by the unseen-domain branch of `ShouldNotifyDomain`
(and by `ForceNotifyDomain` for an unseen domain): `HitCount: 1`,
`FirstSeen = LastSeen = LastNotified = now`, `DailyHits: {today: 1}`,
all other fields at their Go zero values. -/
def newDomainEntry (d : String) (now : Time) : DomainEntry where
  domain := d
  hitCount := 1
  firstSeen := now
  lastSeen := now
  lastNotified := now
  resolved := false
  blacklisted := false
  blacklistedDate := 0
  dailyHits := [(dateOf now, 1)]
  highHitDays := 0
  lastHighHitDate := none
  httpStatusCode := 0
  responseSize := 0
  responseLineCount := 0
  responseWordCount := 0
  riskLabels := []
  riskScore := 0
  certIssuer := ""
  previousIssuer := ""
  statusCodeHistory := []
  isDuplicate := false

/-- The entry created by `RecordDomainResolution` for an unseen domain:
only `Domain`, `FirstSeen`, `LastSeen` are set; the rest are Go zero values. -/
def zeroEntry (d : String) (now : Time) : DomainEntry where
  domain := d
  hitCount := 0
  firstSeen := now
  lastSeen := now
  lastNotified := 0
  resolved := false
  blacklisted := false
  blacklistedDate := 0
  dailyHits := []
  highHitDays := 0
  lastHighHitDate := none
  httpStatusCode := 0
  responseSize := 0
  responseLineCount := 0
  responseWordCount := 0
  riskLabels := []
  riskScore := 0
  certIssuer := ""
  previousIssuer := ""
  statusCodeHistory := []
  isDuplicate := false

/-- Result of one `ShouldNotifyDomain` call: the updated table, the returned
Bool, and how many times `dt.save()` ran during the call. -/
structure NotifyResult where
  state : Tracker
  notify : Bool
  saves : Nat
deriving Repr, DecidableEq

/-- `ShouldNotifyDomain` from tracking.go. -/
def ShouldNotifyDomain (now : Time) (st : Tracker) (domain : String) : NotifyResult :=
  let d := normalizeDomain domain
  match lookupEntry st d with
  | none =>
    { state := insertEntry st d (newDomainEntry d now), notify := true, saves := 0 }
  | some entry =>
    if entry.blacklisted then
      { state := insertEntry st d { entry with hitCount := entry.hitCount + 1, lastSeen := now },
        notify := false, saves := 0 }
    else
      if sevenDays ≤ now - entry.lastNotified ∧ dateOf now ≠ dateOf entry.lastNotified then
        let upd := updateDailyHits now
          { entry with hitCount := entry.hitCount + 1, lastSeen := now, lastNotified := now }
        { state := insertEntry st d upd.1, notify := true, saves := upd.2 }
      else
        let upd := updateDailyHits now
          { entry with hitCount := entry.hitCount + 1, lastSeen := now }
        { state := insertEntry st d upd.1, notify := false, saves := upd.2 }

/-- Result of a mutating tracker operation that returns nothing. -/
structure OpResult where
  state : Tracker
  saves : Nat
deriving Repr, DecidableEq

/-- `RecordDomainResolution` from tracking.go. -/
def RecordDomainResolution (now : Time) (st : Tracker) (domain : String)
    (resolved : Bool) : OpResult :=
  let d := normalizeDomain domain
  let entry :=
    match lookupEntry st d with
    | none => zeroEntry d now
    | some e => e
  { state := insertEntry st d { entry with resolved := resolved }, saves := 1 }

/-- `ForceNotifyDomain` from tracking.go (its trailing `dt.save()` adds one
to the `save()` calls made by `updateDailyHits`). -/
def ForceNotifyDomain (now : Time) (st : Tracker) (domain : String) : OpResult :=
  let d := normalizeDomain domain
  match lookupEntry st d with
  | none => { state := insertEntry st d (newDomainEntry d now), saves := 1 }
  | some entry =>
    let upd := updateDailyHits now
      { entry with hitCount := entry.hitCount + 1, lastSeen := now, lastNotified := now }
    { state := insertEntry st d upd.1, saves := upd.2 + 1 }

/-- `IsWildcardDomain`: `strings.HasPrefix(domain, "*.")`. -/
def IsWildcardDomain (domain : String) : Bool := domain.startsWith "*."

/-- `addRiskLabel` from tracking.go: append the label unless present. -/
def addRiskLabel (e : DomainEntry) (label : String) : DomainEntry :=
  if label ∈ e.riskLabels then e
  else { e with riskLabels := e.riskLabels ++ [label] }

/-- `calculateRisk` from tracking.go: full recompute of `riskScore` from
current fields, adding labels along the way; finally the duplicate
heuristic.  The distinct-status count (`len(uniqueStatuses)` over a set
built from the history) is the length of `List.dedup` of the history. -/
def calculateRisk (e : DomainEntry) : DomainEntry :=
  let wild : Bool := IsWildcardDomain e.domain
  let e1 : DomainEntry := if wild then addRiskLabel e "wildcard" else e
  let s1 : Int := if wild then 30 else 0
  let anom : Bool := 3 ≤ e1.statusCodeHistory.length && 3 ≤ e1.statusCodeHistory.dedup.length
  let e2 : DomainEntry := if anom then addRiskLabel e1 "status-anomaly" else e1
  let s2 : Int := if anom then s1 + 20 else s1
  let freq : Bool := 50 < e2.hitCount || 2 ≤ e2.highHitDays
  let e3 : DomainEntry := if freq then addRiskLabel e2 "high-frequency" else e2
  let s3 : Int := if freq then s2 + 25 else s2
  let s4 : Int := if e3.previousIssuer ≠ "" then s3 + 15 else s3
  let resp : Bool := 0 < e3.responseSize && (e3.responseSize < 100 || 1000000 < e3.responseSize)
  let e4 : DomainEntry := if resp then addRiskLabel e3 "response-anomaly" else e3
  let s5 : Int := if resp then s4 + 10 else s4
  let score : Int := if 100 < s5 then 100 else s5
  let e5 : DomainEntry := { e4 with riskScore := score }
  if 100 < e5.hitCount ∧ e5.responseSize < 500 then { e5 with isDuplicate := true } else e5

/-- `RecordDomainMetadata` from tracking.go: update-only (no upsert); caps
the status-code history at the last 10 entries; recomputes risk; saves. -/
def RecordDomainMetadata (st : Tracker) (domain : String)
    (statusCode responseSize lineCount wordCount : Int) : OpResult :=
  let d := normalizeDomain domain
  match lookupEntry st d with
  | none => { state := st, saves := 0 }
  | some entry =>
    let hist := entry.statusCodeHistory ++ [statusCode]
    let hist := if 10 < hist.length then hist.drop (hist.length - 10) else hist
    let e1 := { entry with
      statusCodeHistory := hist
      httpStatusCode := statusCode
      responseSize := responseSize
      responseLineCount := lineCount
      responseWordCount := wordCount }
    { state := insertEntry st d (calculateRisk e1), saves := 1 }

/-- `RecordDomainIssuer` from tracking.go: update-only; on issuer change
saves the old issuer and adds the "issuer-change" label; recomputes risk;
saves. -/
def RecordDomainIssuer (st : Tracker) (domain issuer : String) : OpResult :=
  let d := normalizeDomain domain
  match lookupEntry st d with
  | none => { state := st, saves := 0 }
  | some entry =>
    let e1 :=
      if entry.certIssuer ≠ "" ∧ entry.certIssuer ≠ issuer then
        addRiskLabel { entry with previousIssuer := entry.certIssuer } "issuer-change"
      else entry
    let e2 := { e1 with certIssuer := issuer }
    { state := insertEntry st d (calculateRisk e2), saves := 1 }

/-- Result of `ClearOldEntries`. -/
structure ClearResult where
  state : Tracker
  removed : Nat
  saves : Nat
deriving Repr, DecidableEq

/-- `ClearOldEntries` from tracking.go: drop entries with
`now - lastSeen > maxAge`; save only if something was removed. -/
def ClearOldEntries (now : Time) (maxAge : Int) (st : Tracker) : ClearResult :=
  let kept := st.filter (fun p => decide (now - p.2.lastSeen ≤ maxAge))
  let removed := st.length - kept.length
  { state := kept, removed := removed, saves := if 0 < removed then 1 else 0 }

/-! ## Notification batcher (`send.go`) -/

/-- `maxBatchSize = 25` from send.go. -/
def maxBatchSize : Nat := 25

/-- Read of `n.pending[target]` (Go map of slices; missing key reads nil). -/
def getPending : List (String × List String) → String → List String
  | [], _ => []
  | (k, v) :: rest, t => if k = t then v else getPending rest t

/-- Write `n.pending[target] = buf`. -/
def setPending : List (String × List String) → String → List String →
    List (String × List String)
  | [], t, buf => [(t, buf)]
  | (k, v) :: rest, t, buf =>
    if k = t then (t, buf) :: rest else (k, v) :: setPending rest t buf

/-- Go `delete(m, target)`: the key is gone afterwards. -/
def deletePending (p : List (String × List String)) (t : String) :
    List (String × List String) :=
  p.filter (fun q => q.1 ≠ t)

/-- `notificationBuffer` from send.go: the per-target pending slices and the
set of targets with an armed flush timer (`n.timers`, keyed by target). -/
structure NotificationBuffer where
  pending : List (String × List String)
  timers : List String
deriving Repr, DecidableEq

/-- Result of `notificationBuffer.add`: the updated buffer, the batch handed
to `go n.send(target, domains)` if the size threshold was reached (the
dispatch runs on a detached worker, so `add` itself never blocks on it),
and whether a new flush timer was armed. -/
structure AddResult where
  buffer : NotificationBuffer
  dispatched : Option (String × List String)
  armedTimer : Bool
deriving Repr, DecidableEq

/-- `notificationBuffer.add` from send.go. -/
def add (n : NotificationBuffer) (target domain : String) : AddResult :=
  let buf := getPending n.pending target ++ [domain]
  if maxBatchSize ≤ buf.length then
    { buffer := { pending := deletePending n.pending target
                  timers := n.timers.filter (fun k => k ≠ target) }
      dispatched := some (target, buf)
      armedTimer := false }
  else
    if target ∈ n.timers then
      { buffer := { pending := setPending n.pending target buf, timers := n.timers }
        dispatched := none, armedTimer := false }
    else
      { buffer := { pending := setPending n.pending target buf, timers := target :: n.timers }
        dispatched := none, armedTimer := true }

/-- `notificationBuffer.flush` from send.go: atomic detach of the pending
buffer and timer under the lock; no-op when nothing is pending. -/
def flush (n : NotificationBuffer) (target : String) :
    NotificationBuffer × Option (String × List String) :=
  let domains := getPending n.pending target
  if domains = [] then (n, none)
  else
    ({ pending := deletePending n.pending target
       timers := n.timers.filter (fun k => k ≠ target) },
     some (target, domains))

/-! ## Sink delivery with retry/backoff (`sendDiscord` / `sendToTelegram`) -/

/-- `maxRetries = 3` from send.go. -/
def maxRetries : Nat := 3

/-- `rateLimitWait = 2 * time.Second` from send.go, in seconds. -/
def rateLimitWait : Int := 2

/-- One HTTP attempt's outcome as seen by the retry loop: either
`http.Post` returned an error (no response), or a response arrived with the
given status code. -/
inductive SinkResponse where
  | transportError : SinkResponse
  | status : Int → SinkResponse
deriving Repr, DecidableEq

/-- How a batch delivery ended for one sink. -/
inductive DeliveryResult where
  | success : DeliveryResult
  | abandonedTransport : DeliveryResult
  | abandonedStatus : Int → DeliveryResult
  | exhausted : DeliveryResult
deriving Repr, DecidableEq

/-- Observable trace of one delivery loop: the payload posted by each
attempt in order, the `time.Sleep` durations performed, and the outcome. -/
structure SendOutcome where
  posted : List String
  waits : List Int
  result : DeliveryResult
deriving Repr, DecidableEq

/-- The retry loop shared by `sendDiscord` and `sendToTelegram`
(`for attempt := 0; attempt < maxRetries; attempt++`): success statuses per
`succ`; 429 sleeps `rateLimitWait * (attempt+1)` and retries with the same
marshalled payload; any other response or a transport error returns at
once.  `oracle` gives the network's response to each attempt; `fuel` is the
number of loop iterations remaining. -/
def retryLoop (succ : Int → Bool) (oracle : Nat → SinkResponse) (payload : String) :
    Nat → Nat → SendOutcome
  | _, 0 => { posted := [], waits := [], result := .exhausted }
  | attempt, fuel + 1 =>
    match oracle attempt with
    | .transportError =>
      { posted := [payload], waits := [], result := .abandonedTransport }
    | .status c =>
      if succ c then { posted := [payload], waits := [], result := .success }
      else if c = 429 then
        let rest := retryLoop succ oracle payload (attempt + 1) fuel
        { posted := payload :: rest.posted
          waits := rateLimitWait * ((attempt : Int) + 1) :: rest.waits
          result := rest.result }
      else { posted := [payload], waits := [], result := .abandonedStatus c }

/-- Statuses `sendDiscord` treats as success: `http.StatusOK, http.StatusNoContent`. -/
def discordSuccess (c : Int) : Bool := c == 200 || c == 204

/-- Status `sendToTelegram` treats as success: `http.StatusOK` only. -/
def telegramSuccess (c : Int) : Bool := c == 200

/-- A full sink delivery: the loop started at attempt 0 with `maxRetries`
iterations available. -/
def runSink (succ : Int → Bool) (oracle : Nat → SinkResponse) (payload : String) :
    SendOutcome :=
  retryLoop succ oracle payload 0 maxRetries

/-- `sendDiscord` from send.go (the payload is marshalled once, before the
loop). -/
def sendDiscord (oracle : Nat → SinkResponse) (payload : String) : SendOutcome :=
  runSink discordSuccess oracle payload

/-- `sendToTelegram` from send.go. -/
def sendToTelegram (oracle : Nat → SinkResponse) (payload : String) : SendOutcome :=
  runSink telegramSuccess oracle payload

/-! ## Reference semantics of the getter copies (`GetDomainInfo`)

In Go, a `map` value is a pointer to shared storage.  `copy := *entry` in
`GetDomainInfo` / `GetAllDomains` copies the struct field-for-field, so the
`DailyHits` field of the returned copy is the *same map reference* as the
internal entry's.  To express this, the entry's map-typed field is modelled
as an index (`dailyHitsRef`) into a heap of map contents. -/

/-- A `DomainEntry` as stored in memory: scalar fields plus the reference
held by its `DailyHits` map field (only the fields the sharing argument
needs are carried). -/
structure EntryWithRef where
  domain : String
  hitCount : Int
  dailyHitsRef : Nat
deriving Repr, DecidableEq

/-- The tracker's entries together with the heap the map references point
into. -/
structure TrackerHeap where
  entries : List (String × EntryWithRef)
  heap : List (List (Int × Int))
deriving Repr, DecidableEq

/-- Map-reference read of the entry table. -/
def lookupRef : List (String × EntryWithRef) → String → Option EntryWithRef
  | [], _ => none
  | (k, v) :: rest, d => if k = d then some v else lookupRef rest d

/-- Dereference a map reference. -/
def heapRead (h : List (List (Int × Int))) (r : Nat) : List (Int × Int) :=
  h.getD r []

/-- Overwrite the contents a map reference points to. -/
def heapWrite (h : List (List (Int × Int))) (r : Nat) (m : List (Int × Int)) :
    List (List (Int × Int)) :=
  h.set r m

/-- `GetDomainInfo` from tracking.go: `copy := *entry; return &copy` — a
field-for-field struct copy, which copies the `DailyHits` map *reference*,
not the map contents. -/
def GetDomainInfo (t : TrackerHeap) (domain : String) : Option EntryWithRef :=
  match lookupRef t.entries (normalizeDomain domain) with
  | some entry => some entry
  | none => none

/-- A caller mutating the `DailyHits` map of the entry returned to it:
`info.DailyHits[date] = v` writes through the map reference into the shared
heap. -/
def callerWriteDailyHits (t : TrackerHeap) (info : EntryWithRef) (date v : Int) :
    TrackerHeap :=
  { t with
    heap := heapWrite t.heap info.dailyHitsRef
      (setHits (heapRead t.heap info.dailyHitsRef) date v) }

/-- The `DailyHits` contents of the tracker's own (internal) entry for a
hostname. -/
def internalDailyHits (t : TrackerHeap) (domain : String) : Option (List (Int × Int)) :=
  (lookupRef t.entries (normalizeDomain domain)).map fun e => heapRead t.heap e.dailyHitsRef

/-! ## Map lemmas -/

theorem lookupEntry_insertEntry (st : Tracker) (d : String) (x : DomainEntry)
    (k : String) :
    lookupEntry (insertEntry st d x) k = if k = d then some x else lookupEntry st k := by
  induction st with
  | nil =>
    by_cases h : k = d
    · subst h; simp [insertEntry, lookupEntry]
    · simp [insertEntry, lookupEntry, h, Ne.symm h]
  | cons p rest ih =>
    obtain ⟨k₀, v₀⟩ := p
    by_cases h₀ : k₀ = d
    · subst h₀
      by_cases h : k = k₀
      · subst h; simp [insertEntry, lookupEntry]
      · simp [insertEntry, lookupEntry, h, Ne.symm h]
    · by_cases h : k₀ = k
      · subst h
        simp [insertEntry, lookupEntry, h₀, Ne.symm h₀]
      · simp [insertEntry, lookupEntry, h₀, h, ih]

theorem lookupEntry_insertEntry_self (st : Tracker) (d : String) (x : DomainEntry) :
    lookupEntry (insertEntry st d x) d = some x := by
  simp [lookupEntry_insertEntry]

/-- Keys never looked up successfully are absent. -/
theorem lookupEntry_eq_none_of_not_mem (st : Tracker) (k : String)
    (h : k ∉ st.map Prod.fst) : lookupEntry st k = none := by
  induction st with
  | nil => rfl
  | cons p rest ih =>
    obtain ⟨k₀, v₀⟩ := p
    simp only [List.map_cons, List.mem_cons] at h
    push_neg at h
    simp [lookupEntry, Ne.symm h.1, ih h.2]

/-- The Go map invariant: every key occurs at most once in the table. -/
def UniqueKeys (st : Tracker) : Prop := (st.map Prod.fst).Nodup

theorem lookupEntry_of_lookupEntry_filter (p : String × DomainEntry → Bool)
    (st : Tracker) (k : String) (e : DomainEntry) (hu : UniqueKeys st)
    (h : lookupEntry (st.filter p) k = some e) : lookupEntry st k = some e := by
  induction st with
  | nil => simp [lookupEntry] at h
  | cons q rest ih =>
    obtain ⟨k₀, v₀⟩ := q
    have hu' : UniqueKeys rest ∧ k₀ ∉ rest.map Prod.fst := by
      have := hu
      simp only [UniqueKeys, List.map_cons, List.nodup_cons] at this
      exact ⟨this.2, this.1⟩
    by_cases hp : p (k₀, v₀)
    · rw [List.filter_cons_of_pos hp] at h
      by_cases hk : k₀ = k
      · subst hk
        simp only [lookupEntry, if_pos rfl] at h ⊢
        exact h
      · simp only [lookupEntry, if_neg hk] at h ⊢
        exact ih hu'.1 h
    · rw [List.filter_cons_of_neg hp] at h
      have hrest := ih hu'.1 h
      by_cases hk : k₀ = k
      · subst hk
        rw [lookupEntry_eq_none_of_not_mem rest k₀ hu'.2] at hrest
        simp at hrest
      · simp only [lookupEntry, if_neg hk]
        exact hrest

/-! ## `updateDailyHits` lemmas -/

theorem updateDailyHits_preserves (now : Time) (e : DomainEntry) :
    ((updateDailyHits now e).1).domain = e.domain ∧
    ((updateDailyHits now e).1).hitCount = e.hitCount ∧
    ((updateDailyHits now e).1).firstSeen = e.firstSeen ∧
    ((updateDailyHits now e).1).lastSeen = e.lastSeen ∧
    ((updateDailyHits now e).1).lastNotified = e.lastNotified ∧
    ((updateDailyHits now e).1).resolved = e.resolved ∧
    ((updateDailyHits now e).1).httpStatusCode = e.httpStatusCode ∧
    ((updateDailyHits now e).1).responseSize = e.responseSize ∧
    ((updateDailyHits now e).1).riskLabels = e.riskLabels ∧
    ((updateDailyHits now e).1).riskScore = e.riskScore ∧
    ((updateDailyHits now e).1).certIssuer = e.certIssuer ∧
    ((updateDailyHits now e).1).previousIssuer = e.previousIssuer ∧
    ((updateDailyHits now e).1).statusCodeHistory = e.statusCodeHistory ∧
    ((updateDailyHits now e).1).isDuplicate = e.isDuplicate := by
  unfold updateDailyHits
  dsimp only
  split_ifs <;> simp

theorem updateDailyHits_blacklisted_mono (now : Time) (e : DomainEntry)
    (h : e.blacklisted = true) : ((updateDailyHits now e).1).blacklisted = true := by
  unfold updateDailyHits
  dsimp only
  split_ifs <;> simp [h]

theorem updateDailyHits_saves (now : Time) (e : DomainEntry) :
    (updateDailyHits now e).2 = 1 := rfl

/-! ## `ShouldNotifyDomain` branch equations -/

theorem shouldNotify_unseen (now : Time) (st : Tracker) (domain : String)
    (h : lookupEntry st (normalizeDomain domain) = none) :
    ShouldNotifyDomain now st domain =
      { state := insertEntry st (normalizeDomain domain)
          (newDomainEntry (normalizeDomain domain) now)
        notify := true, saves := 0 } := by
  simp only [ShouldNotifyDomain]
  rw [h]

theorem shouldNotify_blacklisted (now : Time) (st : Tracker) (domain : String)
    (e : DomainEntry) (h : lookupEntry st (normalizeDomain domain) = some e)
    (hb : e.blacklisted = true) :
    ShouldNotifyDomain now st domain =
      { state := insertEntry st (normalizeDomain domain)
          { e with hitCount := e.hitCount + 1, lastSeen := now }
        notify := false, saves := 0 } := by
  simp only [ShouldNotifyDomain]
  rw [h]
  simp [hb]

theorem shouldNotify_fresh (now : Time) (st : Tracker) (domain : String)
    (e : DomainEntry) (h : lookupEntry st (normalizeDomain domain) = some e)
    (hb : e.blacklisted = false)
    (hc : sevenDays ≤ now - e.lastNotified ∧ dateOf now ≠ dateOf e.lastNotified) :
    ShouldNotifyDomain now st domain =
      { state := insertEntry st (normalizeDomain domain)
          (updateDailyHits now
            { e with hitCount := e.hitCount + 1, lastSeen := now, lastNotified := now }).1
        notify := true, saves := 1 } := by
  simp only [ShouldNotifyDomain]
  rw [h]
  simp [hb, hc, updateDailyHits_saves]

theorem shouldNotify_suppressed (now : Time) (st : Tracker) (domain : String)
    (e : DomainEntry) (h : lookupEntry st (normalizeDomain domain) = some e)
    (hb : e.blacklisted = false)
    (hc : ¬(sevenDays ≤ now - e.lastNotified ∧ dateOf now ≠ dateOf e.lastNotified)) :
    ShouldNotifyDomain now st domain =
      { state := insertEntry st (normalizeDomain domain)
          (updateDailyHits now { e with hitCount := e.hitCount + 1, lastSeen := now }).1
        notify := false, saves := 1 } := by
  simp only [ShouldNotifyDomain]
  rw [h]
  simp [hb, hc, updateDailyHits_saves]

/-- After any call whose table stores `lastNotified = t` for the hostname, a
further call that is either within seven days of `t` or on `t`'s calendar
day returns false. -/
theorem notify_false_of_recent (t now' : Time) (st : Tracker) (domain : String)
    (e : DomainEntry) (h : lookupEntry st (normalizeDomain domain) = some e)
    (hln : e.lastNotified = t)
    (hc : ¬(sevenDays ≤ now' - t ∧ dateOf now' ≠ dateOf t)) :
    (ShouldNotifyDomain now' st domain).notify = false := by
  by_cases hb : e.blacklisted
  · rw [shouldNotify_blacklisted now' st domain e h hb]
  · have hb' : e.blacklisted = false := by simpa using hb
    have hc' : ¬(sevenDays ≤ now' - e.lastNotified ∧ dateOf now' ≠ dateOf e.lastNotified) := by
      rw [hln]; exact hc
    rw [shouldNotify_suppressed now' st domain e h hb' hc']

theorem updateDailyHits_lastNotified (now : Time) (e : DomainEntry) :
    ((updateDailyHits now e).1).lastNotified = e.lastNotified :=
  (updateDailyHits_preserves now e).2.2.2.2.1

theorem lookup_insert_ne_none (st : Tracker) (d k : String) (x : DomainEntry)
    (h : lookupEntry st k ≠ none) : lookupEntry (insertEntry st d x) k ≠ none := by
  rw [lookupEntry_insertEntry]
  split_ifs <;> simp_all

/-- No branch of `ShouldNotifyDomain` ever removes a key from the table. -/
theorem lookup_ne_none_after_notify (now : Time) (st : Tracker) (domain k : String)
    (h : lookupEntry st k ≠ none) :
    lookupEntry (ShouldNotifyDomain now st domain).state k ≠ none := by
  rcases h' : lookupEntry st (normalizeDomain domain) with _ | e
  · rw [shouldNotify_unseen now st domain h']
    exact lookup_insert_ne_none st _ k _ h
  · by_cases hb : e.blacklisted
    · rw [shouldNotify_blacklisted now st domain e h' hb]
      exact lookup_insert_ne_none st _ k _ h
    · have hb' : e.blacklisted = false := by simpa using hb
      by_cases hcond : sevenDays ≤ now - e.lastNotified ∧ dateOf now ≠ dateOf e.lastNotified
      · rw [shouldNotify_fresh now st domain e h' hb' hcond]
        exact lookup_insert_ne_none st _ k _ h
      · rw [shouldNotify_suppressed now st domain e h' hb' hcond]
        exact lookup_insert_ne_none st _ k _ h

/-! ## Claim C1 -/

/-- C1: for a hostname with an existing, non-blacklisted entry,
`ShouldNotifyDomain` returns true iff at least seven days have elapsed since
`lastNotified` and today's calendar date differs from `lastNotified`'s; on
true it increments `hitCount` and updates `lastSeen`, `lastNotified` and the
daily-hit accounting; on false it still increments `hitCount`, updates
`lastSeen` and the daily-hit accounting.  Consequently a second call on the
same calendar day after a true result returns false, and any call within
seven days of a true result returns false. -/
theorem C1_cooldown_once_per_day (now : Time) (st : Tracker) (H : String)
    (e : DomainEntry) (hlook : lookupEntry st (normalizeDomain H) = some e)
    (hbl : e.blacklisted = false) :
    ((ShouldNotifyDomain now st H).notify = true ↔
      sevenDays ≤ now - e.lastNotified ∧ dateOf now ≠ dateOf e.lastNotified) ∧
    ((ShouldNotifyDomain now st H).notify = true →
      (ShouldNotifyDomain now st H).state = insertEntry st (normalizeDomain H)
        (updateDailyHits now
          { e with hitCount := e.hitCount + 1, lastSeen := now, lastNotified := now }).1) ∧
    ((ShouldNotifyDomain now st H).notify = false →
      (ShouldNotifyDomain now st H).state = insertEntry st (normalizeDomain H)
        (updateDailyHits now { e with hitCount := e.hitCount + 1, lastSeen := now }).1) ∧
    (∀ now' : Time, (ShouldNotifyDomain now st H).notify = true →
      dateOf now' = dateOf now →
      (ShouldNotifyDomain now' (ShouldNotifyDomain now st H).state H).notify = false) ∧
    (∀ now' : Time, (ShouldNotifyDomain now st H).notify = true →
      now' - now < sevenDays →
      (ShouldNotifyDomain now' (ShouldNotifyDomain now st H).state H).notify = false) := by
  by_cases hc : sevenDays ≤ now - e.lastNotified ∧ dateOf now ≠ dateOf e.lastNotified
  · rw [shouldNotify_fresh now st H e hlook hbl hc]
    refine ⟨by simp [hc], fun _ => rfl, ?_, ?_, ?_⟩
    · intro hfalse
      simp at hfalse
    · intro now' _ hday
      refine notify_false_of_recent now now' _ H _ (lookupEntry_insertEntry_self st _ _)
        (updateDailyHits_lastNotified now _) ?_
      simp [hday]
    · intro now' _ hlt
      refine notify_false_of_recent now now' _ H _ (lookupEntry_insertEntry_self st _ _)
        (updateDailyHits_lastNotified now _) ?_
      rintro ⟨h1, -⟩
      exact absurd h1 (not_le.mpr hlt)
  · rw [shouldNotify_suppressed now st H e hlook hbl hc]
    refine ⟨by simpa using hc, ?_, fun _ => rfl, ?_, ?_⟩
    · intro htrue
      simp at htrue
    · intro now' htrue _
      simp at htrue
    · intro now' htrue _
      simp at htrue

/-- Sample tracker for the C1 witness: one entry first seen at instant 0. -/
def w1entry : DomainEntry := newDomainEntry "a.example.com" 0

/-- Sample table holding `w1entry`. -/
def w1st : Tracker := [("a.example.com", w1entry)]

theorem C1_witness :
    (ShouldNotifyDomain (8 * 24 * 60 * 60) w1st "a.example.com").notify = true :=
  ((C1_cooldown_once_per_day (8 * 24 * 60 * 60) w1st "a.example.com" w1entry
    (by decide) (by decide)).1).mpr (by decide)

/-! ## Claim C2 -/

/-- C2: the first call for a hostname whose normalized form has no entry
returns true and creates an entry with `hitCount = 1`,
`firstSeen = lastSeen = lastNotified = now` and `dailyHits = {today: 1}`;
afterwards the key is present, and stays present under any further
`ShouldNotifyDomain` call, so no later call can take the first-sighting
branch for it again. -/
theorem C2_first_sighting (now : Time) (st : Tracker) (H : String)
    (hlook : lookupEntry st (normalizeDomain H) = none) :
    (ShouldNotifyDomain now st H).notify = true ∧
    lookupEntry (ShouldNotifyDomain now st H).state (normalizeDomain H) =
      some (newDomainEntry (normalizeDomain H) now) ∧
    (newDomainEntry (normalizeDomain H) now).hitCount = 1 ∧
    (newDomainEntry (normalizeDomain H) now).firstSeen = now ∧
    (newDomainEntry (normalizeDomain H) now).lastSeen = now ∧
    (newDomainEntry (normalizeDomain H) now).lastNotified = now ∧
    (newDomainEntry (normalizeDomain H) now).dailyHits = [(dateOf now, 1)] ∧
    (∀ (now' : Time) (H' : String),
      lookupEntry (ShouldNotifyDomain now' (ShouldNotifyDomain now st H).state H').state
        (normalizeDomain H) ≠ none) := by
  rw [shouldNotify_unseen now st H hlook]
  refine ⟨rfl, lookupEntry_insertEntry_self st _ _, rfl, rfl, rfl, rfl, rfl, ?_⟩
  intro now' H'
  refine lookup_ne_none_after_notify now' _ H' _ ?_
  rw [lookupEntry_insertEntry_self]
  simp

theorem C2_witness : (ShouldNotifyDomain 0 [] "B.example.com.").notify = true :=
  (C2_first_sighting 0 [] "B.example.com." rfl).1

/-! ## Claim C3 -/

/-- C3: daily-hit accounting and the blacklist escalation rule.  The day's
count is incremented; while it stays at or below 10 the streak state is
untouched (in particular a gap day does not reset the streak); further hits
on a day already recorded as high leave the streak untouched; the first time
a day's count crosses 10, `highHitDays` increments when `lastHighHitDate`
is yesterday and otherwise resets to 1, `lastHighHitDate` moves to today,
and the entry is blacklisted exactly when the streak reaches 3, with
`blacklistedDate` set to now.  In particular, with a streak of 2 ending
yesterday, the 11th hit of today blacklists the entry. -/
theorem C3_blacklist_escalation (now : Time) (e : DomainEntry)
    (hbl : e.blacklisted = false) :
    (((updateDailyHits now e).1).dailyHits =
      setHits e.dailyHits (dateOf now) (getHits e.dailyHits (dateOf now) + 1)) ∧
    (getHits e.dailyHits (dateOf now) + 1 ≤ 10 →
      ((updateDailyHits now e).1).highHitDays = e.highHitDays ∧
      ((updateDailyHits now e).1).lastHighHitDate = e.lastHighHitDate ∧
      ((updateDailyHits now e).1).blacklisted = false) ∧
    (10 < getHits e.dailyHits (dateOf now) + 1 →
      e.lastHighHitDate = some (dateOf now) →
      ((updateDailyHits now e).1).highHitDays = e.highHitDays ∧
      ((updateDailyHits now e).1).lastHighHitDate = e.lastHighHitDate ∧
      ((updateDailyHits now e).1).blacklisted = false) ∧
    (10 < getHits e.dailyHits (dateOf now) + 1 →
      e.lastHighHitDate ≠ some (dateOf now) →
      ((updateDailyHits now e).1).highHitDays =
        (if e.lastHighHitDate = some (dateOf now - 1) then e.highHitDays + 1 else 1) ∧
      ((updateDailyHits now e).1).lastHighHitDate = some (dateOf now) ∧
      (((updateDailyHits now e).1).blacklisted = true ↔
        3 ≤ (if e.lastHighHitDate = some (dateOf now - 1) then e.highHitDays + 1 else 1)) ∧
      (((updateDailyHits now e).1).blacklisted = true →
        ((updateDailyHits now e).1).blacklistedDate = now)) ∧
    (e.highHitDays = 2 → e.lastHighHitDate = some (dateOf now - 1) →
      getHits e.dailyHits (dateOf now) + 1 = 11 →
      ((updateDailyHits now e).1).blacklisted = true ∧
      ((updateDailyHits now e).1).blacklistedDate = now) := by
  unfold updateDailyHits
  dsimp only
  refine ⟨?_, ?_, ?_, ?_, ?_⟩
  · split_ifs <;> rfl
  · intro hle
    rw [if_neg (by omega)]
    exact ⟨rfl, rfl, hbl⟩
  · intro hgt htoday
    rw [if_pos hgt, if_neg (by simp [htoday])]
    exact ⟨rfl, rfl, hbl⟩
  · intro hgt htoday
    rw [if_pos hgt, if_pos (by simpa using htoday)]
    split_ifs with hy h3 h3 <;> simp_all
  · intro hh2 hy hcnt
    rw [if_pos (by omega),
      if_pos (by rw [hy]; simp),
      if_pos hy, if_pos (by omega)]
    exact ⟨rfl, rfl⟩

/-- Concrete entry for the C3 witness: streak of 2 ending yesterday
(day `-1`), ten hits already today (day 0). -/
def w3entry : DomainEntry :=
  { zeroEntry "c.example.com" 0 with
    dailyHits := [(0, 10)], highHitDays := 2, lastHighHitDate := some (-1) }

theorem C3_witness :
    ((updateDailyHits 0 w3entry).1).blacklisted = true ∧
    ((updateDailyHits 0 w3entry).1).blacklistedDate = 0 :=
  (C3_blacklist_escalation 0 w3entry rfl).2.2.2.2 rfl (by decide) (by decide)

/-! ## `addRiskLabel` / `calculateRisk` field lemmas -/

theorem addRiskLabel_fields (e : DomainEntry) (l : String) :
    (addRiskLabel e l).domain = e.domain ∧
    (addRiskLabel e l).hitCount = e.hitCount ∧
    (addRiskLabel e l).firstSeen = e.firstSeen ∧
    (addRiskLabel e l).lastSeen = e.lastSeen ∧
    (addRiskLabel e l).lastNotified = e.lastNotified ∧
    (addRiskLabel e l).resolved = e.resolved ∧
    (addRiskLabel e l).blacklisted = e.blacklisted ∧
    (addRiskLabel e l).blacklistedDate = e.blacklistedDate ∧
    (addRiskLabel e l).dailyHits = e.dailyHits ∧
    (addRiskLabel e l).highHitDays = e.highHitDays ∧
    (addRiskLabel e l).lastHighHitDate = e.lastHighHitDate ∧
    (addRiskLabel e l).httpStatusCode = e.httpStatusCode ∧
    (addRiskLabel e l).responseSize = e.responseSize ∧
    (addRiskLabel e l).responseLineCount = e.responseLineCount ∧
    (addRiskLabel e l).responseWordCount = e.responseWordCount ∧
    (addRiskLabel e l).riskScore = e.riskScore ∧
    (addRiskLabel e l).certIssuer = e.certIssuer ∧
    (addRiskLabel e l).previousIssuer = e.previousIssuer ∧
    (addRiskLabel e l).statusCodeHistory = e.statusCodeHistory ∧
    (addRiskLabel e l).isDuplicate = e.isDuplicate := by
  unfold addRiskLabel
  split_ifs <;> simp

theorem addRiskLabel_blacklisted (e : DomainEntry) (l : String) :
    (addRiskLabel e l).blacklisted = e.blacklisted :=
  (addRiskLabel_fields e l).2.2.2.2.2.2.1

theorem addRiskLabel_domain (e : DomainEntry) (l : String) :
    (addRiskLabel e l).domain = e.domain :=
  (addRiskLabel_fields e l).1

theorem addRiskLabel_hitCount (e : DomainEntry) (l : String) :
    (addRiskLabel e l).hitCount = e.hitCount :=
  (addRiskLabel_fields e l).2.1

theorem addRiskLabel_highHitDays (e : DomainEntry) (l : String) :
    (addRiskLabel e l).highHitDays = e.highHitDays :=
  (addRiskLabel_fields e l).2.2.2.2.2.2.2.2.2.1

theorem addRiskLabel_previousIssuer (e : DomainEntry) (l : String) :
    (addRiskLabel e l).previousIssuer = e.previousIssuer :=
  (addRiskLabel_fields e l).2.2.2.2.2.2.2.2.2.2.2.2.2.2.2.2.2.1

theorem addRiskLabel_responseSize (e : DomainEntry) (l : String) :
    (addRiskLabel e l).responseSize = e.responseSize :=
  (addRiskLabel_fields e l).2.2.2.2.2.2.2.2.2.2.2.2.1

theorem addRiskLabel_statusCodeHistory (e : DomainEntry) (l : String) :
    (addRiskLabel e l).statusCodeHistory = e.statusCodeHistory :=
  (addRiskLabel_fields e l).2.2.2.2.2.2.2.2.2.2.2.2.2.2.2.2.2.2.1

theorem calculateRisk_blacklisted (e : DomainEntry) :
    (calculateRisk e).blacklisted = e.blacklisted := by
  simp only [calculateRisk, apply_ite DomainEntry.blacklisted, addRiskLabel_blacklisted,
    ite_self]

/-! ## Blacklist monotonicity helpers -/

theorem lookupEntry_insertEntry_cases (st : Tracker) (d : String) (x : DomainEntry)
    (k : String) (e₂ : DomainEntry)
    (h : lookupEntry (insertEntry st d x) k = some e₂) :
    (k = d ∧ e₂ = x) ∨ (k ≠ d ∧ lookupEntry st k = some e₂) := by
  rw [lookupEntry_insertEntry] at h
  split_ifs at h with hk
  · refine Or.inl ⟨hk, ?_⟩
    injection h with h'
    exact h'.symm
  · exact Or.inr ⟨hk, h⟩

theorem lookup_eq_of_lookups (st : Tracker) (k : String) (e₁ e₂ : DomainEntry)
    (h₁ : lookupEntry st k = some e₁) (h₂ : lookupEntry st k = some e₂) : e₂ = e₁ := by
  rw [h₁] at h₂
  injection h₂ with h'
  exact h'.symm

theorem notify_blacklist_mono (now : Time) (st : Tracker) (H k : String)
    (e₁ e₂ : DomainEntry) (h₁ : lookupEntry st k = some e₁)
    (hb₁ : e₁.blacklisted = true)
    (h₂ : lookupEntry (ShouldNotifyDomain now st H).state k = some e₂) :
    e₂.blacklisted = true := by
  rcases h' : lookupEntry st (normalizeDomain H) with _ | entry
  · rw [shouldNotify_unseen now st H h'] at h₂
    rcases lookupEntry_insertEntry_cases _ _ _ _ _ h₂ with ⟨hk, _⟩ | ⟨_, he⟩
    · subst hk
      rw [h₁] at h'
      cases h'
    · rw [lookup_eq_of_lookups st k e₁ e₂ h₁ he]
      exact hb₁
  · by_cases hb : entry.blacklisted
    · rw [shouldNotify_blacklisted now st H entry h' hb] at h₂
      rcases lookupEntry_insertEntry_cases _ _ _ _ _ h₂ with ⟨_, he⟩ | ⟨_, he⟩
      · rw [he]
        exact hb
      · rw [lookup_eq_of_lookups st k e₁ e₂ h₁ he]
        exact hb₁
    · have hb' : entry.blacklisted = false := by simpa using hb
      by_cases hcond : sevenDays ≤ now - entry.lastNotified ∧
          dateOf now ≠ dateOf entry.lastNotified
      · rw [shouldNotify_fresh now st H entry h' hb' hcond] at h₂
        rcases lookupEntry_insertEntry_cases _ _ _ _ _ h₂ with ⟨hk, _⟩ | ⟨_, he⟩
        · subst hk
          rw [lookup_eq_of_lookups st _ entry e₁ h' h₁, hb'] at hb₁
          simp at hb₁
        · rw [lookup_eq_of_lookups st k e₁ e₂ h₁ he]
          exact hb₁
      · rw [shouldNotify_suppressed now st H entry h' hb' hcond] at h₂
        rcases lookupEntry_insertEntry_cases _ _ _ _ _ h₂ with ⟨hk, _⟩ | ⟨_, he⟩
        · subst hk
          rw [lookup_eq_of_lookups st _ entry e₁ h' h₁, hb'] at hb₁
          simp at hb₁
        · rw [lookup_eq_of_lookups st k e₁ e₂ h₁ he]
          exact hb₁

theorem resolution_blacklist_mono (now : Time) (st : Tracker) (H : String) (r : Bool)
    (k : String) (e₁ e₂ : DomainEntry) (h₁ : lookupEntry st k = some e₁)
    (hb₁ : e₁.blacklisted = true)
    (h₂ : lookupEntry (RecordDomainResolution now st H r).state k = some e₂) :
    e₂.blacklisted = true := by
  rcases h' : lookupEntry st (normalizeDomain H) with _ | entry <;>
    simp only [RecordDomainResolution, h'] at h₂ <;>
    rcases lookupEntry_insertEntry_cases _ _ _ _ _ h₂ with ⟨hk, he⟩ | ⟨_, he⟩
  · subst hk
    rw [h₁] at h'
    cases h'
  · rw [lookup_eq_of_lookups st k e₁ e₂ h₁ he]
    exact hb₁
  · subst hk
    rw [lookup_eq_of_lookups st _ entry e₁ h' h₁] at hb₁
    rw [he]
    exact hb₁
  · rw [lookup_eq_of_lookups st k e₁ e₂ h₁ he]
    exact hb₁

theorem metadata_blacklist_mono (st : Tracker) (H : String) (a b c d : Int)
    (k : String) (e₁ e₂ : DomainEntry) (h₁ : lookupEntry st k = some e₁)
    (hb₁ : e₁.blacklisted = true)
    (h₂ : lookupEntry (RecordDomainMetadata st H a b c d).state k = some e₂) :
    e₂.blacklisted = true := by
  rcases h' : lookupEntry st (normalizeDomain H) with _ | entry
  · simp only [RecordDomainMetadata, h'] at h₂
    rw [lookup_eq_of_lookups st k e₁ e₂ h₁ h₂]
    exact hb₁
  · simp only [RecordDomainMetadata, h'] at h₂
    rcases lookupEntry_insertEntry_cases _ _ _ _ _ h₂ with ⟨hk, he⟩ | ⟨_, he⟩
    · subst hk
      rw [he, calculateRisk_blacklisted]
      rw [lookup_eq_of_lookups st _ entry e₁ h' h₁] at hb₁
      exact hb₁
    · rw [lookup_eq_of_lookups st k e₁ e₂ h₁ he]
      exact hb₁

theorem issuer_blacklist_mono (st : Tracker) (H iss : String)
    (k : String) (e₁ e₂ : DomainEntry) (h₁ : lookupEntry st k = some e₁)
    (hb₁ : e₁.blacklisted = true)
    (h₂ : lookupEntry (RecordDomainIssuer st H iss).state k = some e₂) :
    e₂.blacklisted = true := by
  rcases h' : lookupEntry st (normalizeDomain H) with _ | entry
  · simp only [RecordDomainIssuer, h'] at h₂
    rw [lookup_eq_of_lookups st k e₁ e₂ h₁ h₂]
    exact hb₁
  · simp only [RecordDomainIssuer, h'] at h₂
    rcases lookupEntry_insertEntry_cases _ _ _ _ _ h₂ with ⟨hk, he⟩ | ⟨_, he⟩
    · subst hk
      rw [lookup_eq_of_lookups st _ entry e₁ h' h₁] at hb₁
      rw [he, calculateRisk_blacklisted]
      split_ifs <;> simp [addRiskLabel_blacklisted, hb₁]
    · rw [lookup_eq_of_lookups st k e₁ e₂ h₁ he]
      exact hb₁

theorem force_blacklist_mono (now : Time) (st : Tracker) (H : String)
    (k : String) (e₁ e₂ : DomainEntry) (h₁ : lookupEntry st k = some e₁)
    (hb₁ : e₁.blacklisted = true)
    (h₂ : lookupEntry (ForceNotifyDomain now st H).state k = some e₂) :
    e₂.blacklisted = true := by
  rcases h' : lookupEntry st (normalizeDomain H) with _ | entry
  · simp only [ForceNotifyDomain, h'] at h₂
    rcases lookupEntry_insertEntry_cases _ _ _ _ _ h₂ with ⟨hk, _⟩ | ⟨_, he⟩
    · subst hk
      rw [h₁] at h'
      cases h'
    · rw [lookup_eq_of_lookups st k e₁ e₂ h₁ he]
      exact hb₁
  · simp only [ForceNotifyDomain, h'] at h₂
    rcases lookupEntry_insertEntry_cases _ _ _ _ _ h₂ with ⟨hk, he⟩ | ⟨_, he⟩
    · subst hk
      rw [lookup_eq_of_lookups st _ entry e₁ h' h₁] at hb₁
      rw [he]
      exact updateDailyHits_blacklisted_mono now _ hb₁
    · rw [lookup_eq_of_lookups st k e₁ e₂ h₁ he]
      exact hb₁

theorem clear_blacklist_mono (now : Time) (maxAge : Int) (st : Tracker)
    (k : String) (e₁ e₂ : DomainEntry) (hu : UniqueKeys st)
    (h₁ : lookupEntry st k = some e₁) (hb₁ : e₁.blacklisted = true)
    (h₂ : lookupEntry (ClearOldEntries now maxAge st).state k = some e₂) :
    e₂.blacklisted = true := by
  have h₂' := lookupEntry_of_lookupEntry_filter _ st k e₂ hu h₂
  rw [lookup_eq_of_lookups st k e₁ e₂ h₁ h₂']
  exact hb₁

/-! ## Claim C4 -/

/-- C4: once an entry is blacklisted, every `ShouldNotifyDomain` call for it
returns false, still increments `hitCount` and updates `lastSeen`, and
leaves `dailyHits` untouched; and no tracker operation
(`ShouldNotifyDomain`, `RecordDomainResolution`, `RecordDomainMetadata`,
`RecordDomainIssuer`, `ForceNotifyDomain`, `ClearOldEntries`) ever turns the
flag off again: an entry found blacklisted before an operation is still
blacklisted after it whenever it is still present. -/
theorem C4_blacklisted_monotonic (now : Time) (st : Tracker) (H : String)
    (e : DomainEntry) (hlook : lookupEntry st (normalizeDomain H) = some e)
    (hbl : e.blacklisted = true) :
    (ShouldNotifyDomain now st H).notify = false ∧
    lookupEntry (ShouldNotifyDomain now st H).state (normalizeDomain H) =
      some { e with hitCount := e.hitCount + 1, lastSeen := now } ∧
    ({ e with hitCount := e.hitCount + 1, lastSeen := now }).dailyHits = e.dailyHits ∧
    ({ e with hitCount := e.hitCount + 1, lastSeen := now }).blacklisted = true ∧
    (∀ (now₁ : Time) (st₁ : Tracker) (H₁ k : String) (e₁ e₂ : DomainEntry),
      lookupEntry st₁ k = some e₁ → e₁.blacklisted = true →
      lookupEntry (ShouldNotifyDomain now₁ st₁ H₁).state k = some e₂ →
      e₂.blacklisted = true) ∧
    (∀ (now₁ : Time) (st₁ : Tracker) (H₁ : String) (r : Bool) (k : String)
      (e₁ e₂ : DomainEntry),
      lookupEntry st₁ k = some e₁ → e₁.blacklisted = true →
      lookupEntry (RecordDomainResolution now₁ st₁ H₁ r).state k = some e₂ →
      e₂.blacklisted = true) ∧
    (∀ (st₁ : Tracker) (H₁ : String) (a b c d : Int) (k : String)
      (e₁ e₂ : DomainEntry),
      lookupEntry st₁ k = some e₁ → e₁.blacklisted = true →
      lookupEntry (RecordDomainMetadata st₁ H₁ a b c d).state k = some e₂ →
      e₂.blacklisted = true) ∧
    (∀ (st₁ : Tracker) (H₁ iss k : String) (e₁ e₂ : DomainEntry),
      lookupEntry st₁ k = some e₁ → e₁.blacklisted = true →
      lookupEntry (RecordDomainIssuer st₁ H₁ iss).state k = some e₂ →
      e₂.blacklisted = true) ∧
    (∀ (now₁ : Time) (st₁ : Tracker) (H₁ k : String) (e₁ e₂ : DomainEntry),
      lookupEntry st₁ k = some e₁ → e₁.blacklisted = true →
      lookupEntry (ForceNotifyDomain now₁ st₁ H₁).state k = some e₂ →
      e₂.blacklisted = true) ∧
    (∀ (now₁ maxAge : Int) (st₁ : Tracker) (k : String) (e₁ e₂ : DomainEntry),
      UniqueKeys st₁ → lookupEntry st₁ k = some e₁ → e₁.blacklisted = true →
      lookupEntry (ClearOldEntries now₁ maxAge st₁).state k = some e₂ →
      e₂.blacklisted = true) := by
  rw [shouldNotify_blacklisted now st H e hlook hbl]
  exact ⟨rfl, lookupEntry_insertEntry_self st _ _, rfl, hbl,
    fun now₁ st₁ H₁ k e₁ e₂ h₁ hb₁ h₂ => notify_blacklist_mono now₁ st₁ H₁ k e₁ e₂ h₁ hb₁ h₂,
    fun now₁ st₁ H₁ r k e₁ e₂ h₁ hb₁ h₂ =>
      resolution_blacklist_mono now₁ st₁ H₁ r k e₁ e₂ h₁ hb₁ h₂,
    fun st₁ H₁ a b c d k e₁ e₂ h₁ hb₁ h₂ =>
      metadata_blacklist_mono st₁ H₁ a b c d k e₁ e₂ h₁ hb₁ h₂,
    fun st₁ H₁ iss k e₁ e₂ h₁ hb₁ h₂ => issuer_blacklist_mono st₁ H₁ iss k e₁ e₂ h₁ hb₁ h₂,
    fun now₁ st₁ H₁ k e₁ e₂ h₁ hb₁ h₂ => force_blacklist_mono now₁ st₁ H₁ k e₁ e₂ h₁ hb₁ h₂,
    fun now₁ maxAge st₁ k e₁ e₂ hu h₁ hb₁ h₂ =>
      clear_blacklist_mono now₁ maxAge st₁ k e₁ e₂ hu h₁ hb₁ h₂⟩

/-- Blacklisted entry for the C4 witness. -/
def w4entry : DomainEntry := { newDomainEntry "d.example.com" 0 with blacklisted := true }

/-- Sample table holding `w4entry`. -/
def w4st : Tracker := [("d.example.com", w4entry)]

theorem C4_witness : (ShouldNotifyDomain 5 w4st "d.example.com").notify = false :=
  (C4_blacklisted_monotonic 5 w4st "d.example.com" w4entry (by decide) rfl).1

/-! ## Claim C5 -/

/-- Blacklisted entry for the C5 counterexample. -/
def c5entry : DomainEntry := { newDomainEntry "b.example.com" 0 with blacklisted := true }

/-- Sample table holding `c5entry`. -/
def c5st : Tracker := [("b.example.com", c5entry)]

/-- C5 fails on the code: both the new-domain branch and the blacklisted
branch of `ShouldNotifyDomain` mutate the table (the state changes) yet
perform zero `save()` calls, so the persisted state does not reflect those
mutations. -/
theorem C5_counterexample :
    ((ShouldNotifyDomain 0 [] "a.example.com").state ≠ [] ∧
      (ShouldNotifyDomain 0 [] "a.example.com").saves = 0) ∧
    ((ShouldNotifyDomain 0 c5st "b.example.com").state ≠ c5st ∧
      (ShouldNotifyDomain 0 c5st "b.example.com").saves = 0) := by
  decide

/-- C5 as amended: every mutating tracker operation persists synchronously
*except* the new-domain and blacklisted branches of `ShouldNotifyDomain`,
which mutate without saving.  `ShouldNotifyDomain` saves exactly once (via
`updateDailyHits`) for an existing non-blacklisted entry;
`RecordDomainResolution` always saves; `ForceNotifyDomain` saves once for a
new entry and twice for an existing one; `RecordDomainMetadata` and
`RecordDomainIssuer` save exactly when the hostname exists (they do not
mutate otherwise); `ClearOldEntries` saves exactly when it removed
something. -/
theorem C5_sync_persistence (now : Time) (st : Tracker) (H : String) :
    (lookupEntry st (normalizeDomain H) = none →
      (ShouldNotifyDomain now st H).saves = 0) ∧
    (∀ e, lookupEntry st (normalizeDomain H) = some e → e.blacklisted = true →
      (ShouldNotifyDomain now st H).saves = 0) ∧
    (∀ e, lookupEntry st (normalizeDomain H) = some e → e.blacklisted = false →
      (ShouldNotifyDomain now st H).saves = 1) ∧
    (∀ r, (RecordDomainResolution now st H r).saves = 1) ∧
    (lookupEntry st (normalizeDomain H) = none → (ForceNotifyDomain now st H).saves = 1) ∧
    (∀ e, lookupEntry st (normalizeDomain H) = some e →
      (ForceNotifyDomain now st H).saves = 2) ∧
    (∀ a b c d, lookupEntry st (normalizeDomain H) = none →
      (RecordDomainMetadata st H a b c d).saves = 0 ∧
      (RecordDomainMetadata st H a b c d).state = st) ∧
    (∀ a b c d e, lookupEntry st (normalizeDomain H) = some e →
      (RecordDomainMetadata st H a b c d).saves = 1) ∧
    (∀ iss, lookupEntry st (normalizeDomain H) = none →
      (RecordDomainIssuer st H iss).saves = 0 ∧ (RecordDomainIssuer st H iss).state = st) ∧
    (∀ iss e, lookupEntry st (normalizeDomain H) = some e →
      (RecordDomainIssuer st H iss).saves = 1) ∧
    (∀ maxAge, (ClearOldEntries now maxAge st).removed = 0 →
      (ClearOldEntries now maxAge st).saves = 0) ∧
    (∀ maxAge, 0 < (ClearOldEntries now maxAge st).removed →
      (ClearOldEntries now maxAge st).saves = 1) := by
  refine ⟨?_, ?_, ?_, ?_, ?_, ?_, ?_, ?_, ?_, ?_, ?_, ?_⟩
  · intro h
    rw [shouldNotify_unseen now st H h]
  · intro e h hb
    rw [shouldNotify_blacklisted now st H e h hb]
  · intro e h hb
    by_cases hcond : sevenDays ≤ now - e.lastNotified ∧ dateOf now ≠ dateOf e.lastNotified
    · rw [shouldNotify_fresh now st H e h hb hcond]
    · rw [shouldNotify_suppressed now st H e h hb hcond]
  · intro r
    rfl
  · intro h
    simp only [ForceNotifyDomain, h]
  · intro e h
    simp only [ForceNotifyDomain, h, updateDailyHits_saves]
  · intro a b c d h
    simp [RecordDomainMetadata, h]
  · intro a b c d e h
    simp only [RecordDomainMetadata, h]
  · intro iss h
    simp [RecordDomainIssuer, h]
  · intro iss e h
    simp only [RecordDomainIssuer, h]
  · intro maxAge h
    simp only [ClearOldEntries] at h ⊢
    rw [h]
    simp
  · intro maxAge h
    simp only [ClearOldEntries] at h ⊢
    rw [if_pos h]

theorem C5_witness :
    (RecordDomainResolution 0 [] "e.example.com" true).saves = 1 ∧
    (ShouldNotifyDomain (8 * 24 * 60 * 60) w1st "a.example.com").saves = 1 :=
  ⟨(C5_sync_persistence 0 [] "e.example.com").2.2.2.1 true,
    (C5_sync_persistence (8 * 24 * 60 * 60) w1st "a.example.com").2.2.1 w1entry
      (by decide) (by decide)⟩

/-! ## Claim C6 -/

theorem calculateRisk_domain (e : DomainEntry) :
    (calculateRisk e).domain = e.domain := by
  simp only [calculateRisk, apply_ite DomainEntry.domain, addRiskLabel_domain, ite_self]

theorem calculateRisk_statusCodeHistory (e : DomainEntry) :
    (calculateRisk e).statusCodeHistory = e.statusCodeHistory := by
  simp only [calculateRisk, apply_ite DomainEntry.statusCodeHistory,
    addRiskLabel_statusCodeHistory, ite_self]

theorem calculateRisk_hitCount (e : DomainEntry) :
    (calculateRisk e).hitCount = e.hitCount := by
  simp only [calculateRisk, apply_ite DomainEntry.hitCount, addRiskLabel_hitCount, ite_self]

theorem calculateRisk_highHitDays (e : DomainEntry) :
    (calculateRisk e).highHitDays = e.highHitDays := by
  simp only [calculateRisk, apply_ite DomainEntry.highHitDays, addRiskLabel_highHitDays,
    ite_self]

theorem calculateRisk_previousIssuer (e : DomainEntry) :
    (calculateRisk e).previousIssuer = e.previousIssuer := by
  simp only [calculateRisk, apply_ite DomainEntry.previousIssuer,
    addRiskLabel_previousIssuer, ite_self]

theorem calculateRisk_responseSize (e : DomainEntry) :
    (calculateRisk e).responseSize = e.responseSize := by
  simp only [calculateRisk, apply_ite DomainEntry.responseSize, addRiskLabel_responseSize,
    ite_self]

/-- The risk-score formula exactly as the claim words it: base 0, +30 for a
`*.`-wildcard, +20 when ≥3 status codes with ≥3 distinct values, +25 when
hitCount > 50 or highHitDays ≥ 2, +15 when previousIssuer is non-empty,
+10 when responseSize is strictly between 0 and 100 or above 1,000,000,
capped at 100. -/
def specRiskScore (e : DomainEntry) : Int :=
  let base : Int :=
    (if IsWildcardDomain e.domain then 30 else 0) +
    (if 3 ≤ e.statusCodeHistory.length ∧ 3 ≤ e.statusCodeHistory.dedup.length then 20 else 0) +
    (if 50 < e.hitCount ∨ 2 ≤ e.highHitDays then 25 else 0) +
    (if e.previousIssuer ≠ "" then 15 else 0) +
    (if (0 < e.responseSize ∧ e.responseSize < 100) ∨ 1000000 < e.responseSize then 10 else 0)
  if 100 < base then 100 else base

set_option maxHeartbeats 1000000 in
theorem calculateRisk_riskScore (e : DomainEntry) :
    (calculateRisk e).riskScore = specRiskScore e := by
  simp only [calculateRisk, specRiskScore, apply_ite DomainEntry.riskScore,
    apply_ite DomainEntry.statusCodeHistory, apply_ite DomainEntry.hitCount,
    apply_ite DomainEntry.highHitDays, apply_ite DomainEntry.previousIssuer,
    apply_ite DomainEntry.responseSize, apply_ite DomainEntry.domain,
    addRiskLabel_statusCodeHistory, addRiskLabel_hitCount, addRiskLabel_highHitDays,
    addRiskLabel_previousIssuer, addRiskLabel_responseSize, addRiskLabel_domain,
    ite_self, Bool.and_eq_true, Bool.or_eq_true, decide_eq_true_eq]
  split_ifs <;> omega

theorem specRiskScore_bounds (e : DomainEntry) :
    0 ≤ specRiskScore e ∧ specRiskScore e ≤ 100 := by
  unfold specRiskScore
  dsimp only
  split_ifs <;> omega

/-- C6: each recomputation of the risk score yields exactly the claimed
formula (base 0, +30 wildcard, +20 status anomaly, +25 high frequency,
+15 issuer change, +10 response anomaly, capped at 100); the result always
lies in [0, 100]; and recomputing on the recomputed entry (whose scoring
fields are unchanged) yields the same score. -/
theorem C6_risk_score (e : DomainEntry) :
    (calculateRisk e).riskScore = specRiskScore e ∧
    0 ≤ (calculateRisk e).riskScore ∧
    (calculateRisk e).riskScore ≤ 100 ∧
    (calculateRisk (calculateRisk e)).riskScore = (calculateRisk e).riskScore := by
  have h1 := calculateRisk_riskScore e
  have hb := specRiskScore_bounds e
  have hspec : specRiskScore (calculateRisk e) = specRiskScore e := by
    unfold specRiskScore
    rw [calculateRisk_domain, calculateRisk_statusCodeHistory, calculateRisk_hitCount,
      calculateRisk_highHitDays, calculateRisk_previousIssuer, calculateRisk_responseSize]
  refine ⟨h1, ?_, ?_, ?_⟩
  · rw [h1]
    exact hb.1
  · rw [h1]
    exact hb.2
  · rw [calculateRisk_riskScore (calculateRisk e), hspec, h1]

/-! ## Claim C7 -/

theorem getPending_deletePending (p : List (String × List String)) (t : String) :
    getPending (deletePending p t) t = [] := by
  induction p with
  | nil => rfl
  | cons q rest ih =>
    obtain ⟨k, v⟩ := q
    by_cases hk : k = t
    · simp [deletePending, hk] at ih ⊢
      exact ih
    · simpa [deletePending, getPending, hk] using ih

theorem getPending_setPending_self (p : List (String × List String)) (t : String)
    (buf : List String) : getPending (setPending p t buf) t = buf := by
  induction p with
  | nil => simp [setPending, getPending]
  | cons q rest ih =>
    obtain ⟨k, v⟩ := q
    by_cases hk : k = t
    · subst hk
      simp [setPending, getPending]
    · simp [setPending, getPending, hk, ih]

/-- C7: when an `add` brings a target's pending buffer to `maxBatchSize`,
the whole buffer (old items in arrival order, the new item last) is handed
to the detached dispatch worker, the target's pending buffer is empty
immediately afterwards, and any armed timer for the target is removed.
In the non-flushing case, the buffer grows by appending the new item at the
end, preserving arrival order. -/
theorem C7_size_triggered_flush (n : NotificationBuffer) (target domain : String)
    (hlen : (getPending n.pending target).length = maxBatchSize - 1) :
    (add n target domain).dispatched =
      some (target, getPending n.pending target ++ [domain]) ∧
    (getPending n.pending target ++ [domain]).length = maxBatchSize ∧
    getPending (add n target domain).buffer.pending target = [] ∧
    target ∉ (add n target domain).buffer.timers ∧
    (∀ (n' : NotificationBuffer) (t d : String), (add n' t d).dispatched = none →
      getPending (add n' t d).buffer.pending t = getPending n'.pending t ++ [d]) := by
  have hl : (getPending n.pending target ++ [domain]).length = maxBatchSize := by
    simp [hlen, maxBatchSize]
  have hcond : maxBatchSize ≤ (getPending n.pending target ++ [domain]).length :=
    le_of_eq hl.symm
  refine ⟨?_, hl, ?_, ?_, ?_⟩
  · unfold add
    rw [if_pos hcond]
  · unfold add
    rw [if_pos hcond]
    exact getPending_deletePending n.pending target
  · unfold add
    rw [if_pos hcond]
    simp
  · intro n' t d hdisp
    by_cases h1 : maxBatchSize ≤ (getPending n'.pending t ++ [d]).length
    · unfold add at hdisp
      rw [if_pos h1] at hdisp
      simp at hdisp
    · unfold add at hdisp ⊢
      rw [if_neg h1] at hdisp ⊢
      by_cases h2 : t ∈ n'.timers
      · rw [if_pos h2]
        exact getPending_setPending_self n'.pending t _
      · rw [if_neg h2]
        exact getPending_setPending_self n'.pending t _

/-- Buffer with 24 pending items for the C7 witness. -/
def w7buf : NotificationBuffer :=
  { pending := [("acme.com", List.replicate 24 "x.acme.com")], timers := ["acme.com"] }

theorem C7_witness :
    (add w7buf "acme.com" "y.acme.com").dispatched =
      some ("acme.com", getPending w7buf.pending "acme.com" ++ ["y.acme.com"]) ∧
    getPending (add w7buf "acme.com" "y.acme.com").buffer.pending "acme.com" = [] ∧
    "acme.com" ∉ (add w7buf "acme.com" "y.acme.com").buffer.timers :=
  ⟨(C7_size_triggered_flush w7buf "acme.com" "y.acme.com" (by decide)).1,
    (C7_size_triggered_flush w7buf "acme.com" "y.acme.com" (by decide)).2.2.1,
    (C7_size_triggered_flush w7buf "acme.com" "y.acme.com" (by decide)).2.2.2.1⟩

/-! ## Claim C8: retry-loop step equations and lemmas -/

theorem retryLoop_transport_step (succ : Int → Bool) (oracle : Nat → SinkResponse)
    (payload : String) (attempt fuel : Nat) (h : oracle attempt = .transportError) :
    retryLoop succ oracle payload attempt (fuel + 1) =
      { posted := [payload], waits := [], result := .abandonedTransport } := by
  rw [retryLoop, h]

theorem retryLoop_success_step (succ : Int → Bool) (oracle : Nat → SinkResponse)
    (payload : String) (attempt fuel : Nat) (c : Int) (h : oracle attempt = .status c)
    (hs : succ c = true) :
    retryLoop succ oracle payload attempt (fuel + 1) =
      { posted := [payload], waits := [], result := .success } := by
  rw [retryLoop, h]
  dsimp only
  rw [if_pos hs]

theorem retryLoop_429_step (succ : Int → Bool) (oracle : Nat → SinkResponse)
    (payload : String) (attempt fuel : Nat) (h : oracle attempt = .status 429)
    (hs : succ 429 = false) :
    retryLoop succ oracle payload attempt (fuel + 1) =
      { posted := payload :: (retryLoop succ oracle payload (attempt + 1) fuel).posted
        waits := rateLimitWait * ((attempt : Int) + 1) ::
          (retryLoop succ oracle payload (attempt + 1) fuel).waits
        result := (retryLoop succ oracle payload (attempt + 1) fuel).result } := by
  rw [retryLoop, h]
  dsimp only
  rw [if_neg (by simp [hs]), if_pos rfl]

theorem retryLoop_hard_step (succ : Int → Bool) (oracle : Nat → SinkResponse)
    (payload : String) (attempt fuel : Nat) (c : Int) (h : oracle attempt = .status c)
    (hs : succ c = false) (h4 : c ≠ 429) :
    retryLoop succ oracle payload attempt (fuel + 1) =
      { posted := [payload], waits := [], result := .abandonedStatus c } := by
  rw [retryLoop, h]
  dsimp only
  rw [if_neg (by simp [hs]), if_neg h4]

theorem retryLoop_posted_le (succ : Int → Bool) (oracle : Nat → SinkResponse)
    (payload : String) : ∀ (fuel attempt : Nat),
    (retryLoop succ oracle payload attempt fuel).posted.length ≤ fuel
  | 0, _ => by simp [retryLoop]
  | fuel + 1, attempt => by
    cases h : oracle attempt with
    | transportError =>
      rw [retryLoop_transport_step succ oracle payload attempt fuel h]
      simp
    | status c =>
      by_cases hs : succ c
      · rw [retryLoop_success_step succ oracle payload attempt fuel c h hs]
        simp
      · have hs' : succ c = false := by simpa using hs
        by_cases h4 : c = 429
        · subst h4
          rw [retryLoop_429_step succ oracle payload attempt fuel h hs']
          have ih := retryLoop_posted_le succ oracle payload fuel (attempt + 1)
          simpa using Nat.succ_le_succ ih
        · rw [retryLoop_hard_step succ oracle payload attempt fuel c h hs' h4]
          simp

theorem retryLoop_posted_pos (succ : Int → Bool) (oracle : Nat → SinkResponse)
    (payload : String) (fuel attempt : Nat) (hf : 0 < fuel) :
    1 ≤ (retryLoop succ oracle payload attempt fuel).posted.length := by
  obtain ⟨fuel', rfl⟩ : ∃ f, fuel = f + 1 := ⟨fuel - 1, by omega⟩
  cases h : oracle attempt with
  | transportError =>
    rw [retryLoop_transport_step succ oracle payload attempt fuel' h]
    simp
  | status c =>
    by_cases hs : succ c
    · rw [retryLoop_success_step succ oracle payload attempt fuel' c h hs]
      simp
    · have hs' : succ c = false := by simpa using hs
      by_cases h4 : c = 429
      · subst h4
        rw [retryLoop_429_step succ oracle payload attempt fuel' h hs']
        simp
      · rw [retryLoop_hard_step succ oracle payload attempt fuel' c h hs' h4]
        simp

theorem retryLoop_pos_of_result (succ : Int → Bool) (oracle : Nat → SinkResponse)
    (payload : String) (fuel attempt : Nat)
    (h : (retryLoop succ oracle payload attempt fuel).result ≠ .exhausted) :
    1 ≤ (retryLoop succ oracle payload attempt fuel).posted.length := by
  by_cases hf : 0 < fuel
  · exact retryLoop_posted_pos succ oracle payload fuel attempt hf
  · exfalso
    apply h
    have hf0 : fuel = 0 := by omega
    subst hf0
    rfl

theorem retryLoop_posted_replicate (succ : Int → Bool) (oracle : Nat → SinkResponse)
    (payload : String) : ∀ (fuel attempt : Nat),
    (retryLoop succ oracle payload attempt fuel).posted =
      List.replicate (retryLoop succ oracle payload attempt fuel).posted.length payload
  | 0, _ => by simp [retryLoop]
  | fuel + 1, attempt => by
    cases h : oracle attempt with
    | transportError =>
      rw [retryLoop_transport_step succ oracle payload attempt fuel h]
      simp
    | status c =>
      by_cases hs : succ c
      · rw [retryLoop_success_step succ oracle payload attempt fuel c h hs]
        simp
      · have hs' : succ c = false := by simpa using hs
        by_cases h4 : c = 429
        · subst h4
          rw [retryLoop_429_step succ oracle payload attempt fuel h hs']
          have ih := retryLoop_posted_replicate succ oracle payload fuel (attempt + 1)
          rw [List.length_cons, List.replicate_succ]
          exact congrArg (List.cons payload) ih
        · rw [retryLoop_hard_step succ oracle payload attempt fuel c h hs' h4]
          simp

theorem retryLoop_waits_len (succ : Int → Bool) (oracle : Nat → SinkResponse)
    (payload : String) : ∀ (fuel attempt : Nat),
    (retryLoop succ oracle payload attempt fuel).waits.length =
      (if (retryLoop succ oracle payload attempt fuel).result = .exhausted then
        (retryLoop succ oracle payload attempt fuel).posted.length
      else (retryLoop succ oracle payload attempt fuel).posted.length - 1)
  | 0, _ => by simp [retryLoop]
  | fuel + 1, attempt => by
    cases h : oracle attempt with
    | transportError =>
      rw [retryLoop_transport_step succ oracle payload attempt fuel h]
      simp
    | status c =>
      by_cases hs : succ c
      · rw [retryLoop_success_step succ oracle payload attempt fuel c h hs]
        simp
      · have hs' : succ c = false := by simpa using hs
        by_cases h4 : c = 429
        · subst h4
          rw [retryLoop_429_step succ oracle payload attempt fuel h hs']
          have ih := retryLoop_waits_len succ oracle payload fuel (attempt + 1)
          simp only [List.length_cons]
          split_ifs at ih ⊢ with hres
          · omega
          · have hpos := retryLoop_pos_of_result succ oracle payload fuel (attempt + 1) hres
            omega
        · rw [retryLoop_hard_step succ oracle payload attempt fuel c h hs' h4]
          simp

theorem retryLoop_429 (succ : Int → Bool) (oracle : Nat → SinkResponse)
    (payload : String) : ∀ (fuel attempt i : Nat),
    i < (retryLoop succ oracle payload attempt fuel).waits.length →
    oracle (attempt + i) = .status 429
  | 0, _, i => by simp [retryLoop]
  | fuel + 1, attempt, i => by
    intro hi
    cases h : oracle attempt with
    | transportError =>
      rw [retryLoop_transport_step succ oracle payload attempt fuel h] at hi
      simp at hi
    | status c =>
      by_cases hs : succ c
      · rw [retryLoop_success_step succ oracle payload attempt fuel c h hs] at hi
        simp at hi
      · have hs' : succ c = false := by simpa using hs
        by_cases h4 : c = 429
        · subst h4
          rw [retryLoop_429_step succ oracle payload attempt fuel h hs'] at hi
          simp only [List.length_cons] at hi
          match i with
          | 0 => simpa using h
          | j + 1 =>
            have ih := retryLoop_429 succ oracle payload fuel (attempt + 1) j (by omega)
            have harith : attempt + (j + 1) = attempt + 1 + j := by omega
            rw [harith]
            exact ih
        · rw [retryLoop_hard_step succ oracle payload attempt fuel c h hs' h4] at hi
          simp at hi

theorem retryLoop_waits_val (succ : Int → Bool) (oracle : Nat → SinkResponse)
    (payload : String) : ∀ (fuel attempt i : Nat),
    i < (retryLoop succ oracle payload attempt fuel).waits.length →
    (retryLoop succ oracle payload attempt fuel).waits[i]? =
      some (rateLimitWait * ((attempt + i + 1 : Nat) : Int))
  | 0, _, i => by simp [retryLoop]
  | fuel + 1, attempt, i => by
    intro hi
    cases h : oracle attempt with
    | transportError =>
      rw [retryLoop_transport_step succ oracle payload attempt fuel h] at hi
      simp at hi
    | status c =>
      by_cases hs : succ c
      · rw [retryLoop_success_step succ oracle payload attempt fuel c h hs] at hi
        simp at hi
      · have hs' : succ c = false := by simpa using hs
        by_cases h4 : c = 429
        · subst h4
          rw [retryLoop_429_step succ oracle payload attempt fuel h hs'] at hi ⊢
          simp only [List.length_cons] at hi
          match i with
          | 0 => simp
          | j + 1 =>
            have ih := retryLoop_waits_val succ oracle payload fuel (attempt + 1) j (by omega)
            have harith : attempt + (j + 1) + 1 = attempt + 1 + j + 1 := by omega
            simpa [harith] using ih
        · rw [retryLoop_hard_step succ oracle payload attempt fuel c h hs' h4] at hi
          simp at hi

theorem retryLoop_transport (succ : Int → Bool) (oracle : Nat → SinkResponse)
    (payload : String) : ∀ (fuel attempt : Nat),
    (retryLoop succ oracle payload attempt fuel).result = .abandonedTransport →
    oracle (attempt + ((retryLoop succ oracle payload attempt fuel).posted.length - 1)) =
      .transportError
  | 0, _ => by simp [retryLoop]
  | fuel + 1, attempt => by
    intro hres
    cases h : oracle attempt with
    | transportError =>
      rw [retryLoop_transport_step succ oracle payload attempt fuel h]
      simpa using h
    | status c =>
      by_cases hs : succ c
      · rw [retryLoop_success_step succ oracle payload attempt fuel c h hs] at hres
        simp at hres
      · have hs' : succ c = false := by simpa using hs
        by_cases h4 : c = 429
        · subst h4
          rw [retryLoop_429_step succ oracle payload attempt fuel h hs'] at hres ⊢
          simp only at hres
          have ih := retryLoop_transport succ oracle payload fuel (attempt + 1) hres
          have hpos := retryLoop_pos_of_result succ oracle payload fuel (attempt + 1)
            (by rw [hres]; simp)
          simp only [List.length_cons]
          have harith : attempt + ((retryLoop succ oracle payload (attempt + 1)
              fuel).posted.length + 1 - 1) =
              attempt + 1 +
                ((retryLoop succ oracle payload (attempt + 1) fuel).posted.length - 1) := by
            omega
          rw [harith]
          exact ih
        · rw [retryLoop_hard_step succ oracle payload attempt fuel c h hs' h4] at hres
          simp at hres

theorem retryLoop_status (succ : Int → Bool) (oracle : Nat → SinkResponse)
    (payload : String) : ∀ (fuel attempt : Nat) (c : Int),
    (retryLoop succ oracle payload attempt fuel).result = .abandonedStatus c →
    oracle (attempt + ((retryLoop succ oracle payload attempt fuel).posted.length - 1)) =
      .status c ∧ succ c = false ∧ c ≠ 429
  | 0, _, c => by simp [retryLoop]
  | fuel + 1, attempt, c => by
    intro hres
    cases h : oracle attempt with
    | transportError =>
      rw [retryLoop_transport_step succ oracle payload attempt fuel h] at hres
      simp at hres
    | status c' =>
      by_cases hs : succ c'
      · rw [retryLoop_success_step succ oracle payload attempt fuel c' h hs] at hres
        simp at hres
      · have hs' : succ c' = false := by simpa using hs
        by_cases h4 : c' = 429
        · subst h4
          rw [retryLoop_429_step succ oracle payload attempt fuel h hs'] at hres ⊢
          simp only at hres
          have ih := retryLoop_status succ oracle payload fuel (attempt + 1) c hres
          have hpos := retryLoop_pos_of_result succ oracle payload fuel (attempt + 1)
            (by rw [hres]; simp)
          refine ⟨?_, ih.2.1, ih.2.2⟩
          simp only [List.length_cons]
          have harith : attempt + ((retryLoop succ oracle payload (attempt + 1)
              fuel).posted.length + 1 - 1) =
              attempt + 1 +
                ((retryLoop succ oracle payload (attempt + 1) fuel).posted.length - 1) := by
            omega
          rw [harith]
          exact ih.1
        · rw [retryLoop_hard_step succ oracle payload attempt fuel c' h hs' h4] at hres ⊢
          simp only at hres
          injection hres with hc
          subst hc
          refine ⟨?_, hs', h4⟩
          simpa using h

theorem retryLoop_success (succ : Int → Bool) (oracle : Nat → SinkResponse)
    (payload : String) : ∀ (fuel attempt : Nat),
    (retryLoop succ oracle payload attempt fuel).result = .success →
    ∃ c, oracle (attempt + ((retryLoop succ oracle payload attempt fuel).posted.length - 1)) =
      .status c ∧ succ c = true
  | 0, _ => by simp [retryLoop]
  | fuel + 1, attempt => by
    intro hres
    cases h : oracle attempt with
    | transportError =>
      rw [retryLoop_transport_step succ oracle payload attempt fuel h] at hres
      simp at hres
    | status c' =>
      by_cases hs : succ c'
      · rw [retryLoop_success_step succ oracle payload attempt fuel c' h hs]
        refine ⟨c', ?_, hs⟩
        simpa using h
      · have hs' : succ c' = false := by simpa using hs
        by_cases h4 : c' = 429
        · subst h4
          rw [retryLoop_429_step succ oracle payload attempt fuel h hs'] at hres ⊢
          simp only at hres
          obtain ⟨c, hc, hsc⟩ := retryLoop_success succ oracle payload fuel (attempt + 1) hres
          have hpos := retryLoop_pos_of_result succ oracle payload fuel (attempt + 1)
            (by rw [hres]; simp)
          refine ⟨c, ?_, hsc⟩
          simp only [List.length_cons]
          have harith : attempt + ((retryLoop succ oracle payload (attempt + 1)
              fuel).posted.length + 1 - 1) =
              attempt + 1 +
                ((retryLoop succ oracle payload (attempt + 1) fuel).posted.length - 1) := by
            omega
          rw [harith]
          exact hc
        · rw [retryLoop_hard_step succ oracle payload attempt fuel c' h hs' h4] at hres
          simp at hres

theorem retryLoop_exhausted (succ : Int → Bool) (oracle : Nat → SinkResponse)
    (payload : String) : ∀ (fuel attempt : Nat),
    (retryLoop succ oracle payload attempt fuel).result = .exhausted →
    (retryLoop succ oracle payload attempt fuel).posted.length = fuel
  | 0, _ => by simp [retryLoop]
  | fuel + 1, attempt => by
    intro hres
    cases h : oracle attempt with
    | transportError =>
      rw [retryLoop_transport_step succ oracle payload attempt fuel h] at hres
      simp at hres
    | status c =>
      by_cases hs : succ c
      · rw [retryLoop_success_step succ oracle payload attempt fuel c h hs] at hres
        simp at hres
      · have hs' : succ c = false := by simpa using hs
        by_cases h4 : c = 429
        · subst h4
          rw [retryLoop_429_step succ oracle payload attempt fuel h hs'] at hres ⊢
          simp only at hres
          have ih := retryLoop_exhausted succ oracle payload fuel (attempt + 1) hres
          simp only [List.length_cons]
          omega
        · rw [retryLoop_hard_step succ oracle payload attempt fuel c h hs' h4] at hres
          simp at hres

/-- C8: for every delivery of a batch to a sink (`sendDiscord` and
`sendToTelegram` are the two instances of `runSink`): at least one and at
most `maxRetries = 3` HTTP posts happen; every post carries the same
marshalled payload; every wait (sleep) is preceded by a 429 response and
lasts `rateLimitWait * attemptNumber`; one wait per retry (and one after
each of the three attempts when the budget is exhausted); a transport error
or a non-success non-429 status ends the delivery at that very attempt with
no retry; success ends it with a success status; and exhaustion means all
three attempts returned 429 — after which no further attempt occurs. -/
theorem C8_retry_backoff (succ : Int → Bool) (oracle : Nat → SinkResponse)
    (payload : String) :
    1 ≤ (runSink succ oracle payload).posted.length ∧
    (runSink succ oracle payload).posted.length ≤ maxRetries ∧
    (runSink succ oracle payload).posted =
      List.replicate (runSink succ oracle payload).posted.length payload ∧
    (∀ i, i < (runSink succ oracle payload).waits.length → oracle i = .status 429) ∧
    (∀ i, i < (runSink succ oracle payload).waits.length →
      (runSink succ oracle payload).waits[i]? =
        some (rateLimitWait * ((i + 1 : Nat) : Int))) ∧
    ((runSink succ oracle payload).waits.length =
      if (runSink succ oracle payload).result = .exhausted then
        (runSink succ oracle payload).posted.length
      else (runSink succ oracle payload).posted.length - 1) ∧
    ((runSink succ oracle payload).result = .abandonedTransport →
      oracle ((runSink succ oracle payload).posted.length - 1) = .transportError) ∧
    (∀ c, (runSink succ oracle payload).result = .abandonedStatus c →
      oracle ((runSink succ oracle payload).posted.length - 1) = .status c ∧
        succ c = false ∧ c ≠ 429) ∧
    ((runSink succ oracle payload).result = .success →
      ∃ c, oracle ((runSink succ oracle payload).posted.length - 1) = .status c ∧
        succ c = true) ∧
    ((runSink succ oracle payload).result = .exhausted →
      (runSink succ oracle payload).posted.length = maxRetries ∧
      ∀ i, i < maxRetries → oracle i = .status 429) ∧
    sendDiscord oracle payload = runSink discordSuccess oracle payload ∧
    sendToTelegram oracle payload = runSink telegramSuccess oracle payload := by
  simp only [runSink]
  refine ⟨retryLoop_posted_pos succ oracle payload maxRetries 0 (by decide),
    retryLoop_posted_le succ oracle payload maxRetries 0,
    retryLoop_posted_replicate succ oracle payload maxRetries 0,
    ?_, ?_,
    retryLoop_waits_len succ oracle payload maxRetries 0,
    ?_, ?_, ?_, ?_, rfl, rfl⟩
  · intro i hi
    simpa using retryLoop_429 succ oracle payload maxRetries 0 i hi
  · intro i hi
    simpa using retryLoop_waits_val succ oracle payload maxRetries 0 i hi
  · intro hres
    simpa using retryLoop_transport succ oracle payload maxRetries 0 hres
  · intro c hres
    simpa using retryLoop_status succ oracle payload maxRetries 0 c hres
  · intro hres
    simpa using retryLoop_success succ oracle payload maxRetries 0 hres
  · intro hres
    refine ⟨retryLoop_exhausted succ oracle payload maxRetries 0 hres, ?_⟩
    intro i hi
    have hlen := retryLoop_waits_len succ oracle payload maxRetries 0
    rw [if_pos hres] at hlen
    have hplen := retryLoop_exhausted succ oracle payload maxRetries 0 hres
    have hi' : i < (retryLoop succ oracle payload 0 maxRetries).waits.length := by
      rw [hlen, hplen]
      exact hi
    simpa using retryLoop_429 succ oracle payload maxRetries 0 i hi'

theorem C8_witness :
    (runSink discordSuccess (fun _ => SinkResponse.status 429) "p").posted.length =
      maxRetries ∧
    (runSink discordSuccess (fun _ => SinkResponse.status 429) "p").waits[1]? =
      some (rateLimitWait * ((1 + 1 : Nat) : Int)) :=
  ⟨((C8_retry_backoff discordSuccess (fun _ => .status 429) "p").2.2.2.2.2.2.2.2.2.1
      (by decide)).1,
    (C8_retry_backoff discordSuccess (fun _ => .status 429) "p").2.2.2.2.1 1 (by decide)⟩

/-! ## Claim C9 -/

/-- Tracker with one entry whose `DailyHits` map lives at heap slot 0 with
contents `{day 0 ↦ 1}`. -/
def c9tracker : TrackerHeap :=
  { entries := [("a.example.com",
      { domain := "a.example.com", hitCount := 1, dailyHitsRef := 0 })]
    heap := [[(0, 1)]] }

/-- The struct copy `GetDomainInfo` hands to the caller: same fields, same
map reference. -/
def c9info : EntryWithRef := { domain := "a.example.com", hitCount := 1, dailyHitsRef := 0 }

/-- C9 fails on the code: `copy := *entry` copies the `DailyHits` map
*reference*, so after the caller writes `999` into the returned copy's map,
the tracker's internal entry reads `999` too — the caller has corrupted
internal state through a getter result. -/
theorem C9_shared_map_mutation :
    GetDomainInfo c9tracker "a.example.com" = some c9info ∧
    internalDailyHits c9tracker "a.example.com" = some [(0, 1)] ∧
    internalDailyHits (callerWriteDailyHits c9tracker c9info 0 999) "a.example.com" =
      some [(0, 999)] := by
  decide

/-! ## Claim C10 -/

theorem updateDailyHits_riskLabels (now : Time) (e : DomainEntry) :
    ((updateDailyHits now e).1).riskLabels = e.riskLabels :=
  (updateDailyHits_preserves now e).2.2.2.2.2.2.2.2.1

theorem addRiskLabel_pre (e : DomainEntry) (l : String) :
    e.riskLabels <+: (addRiskLabel e l).riskLabels := by
  unfold addRiskLabel
  split_ifs
  · exact List.prefix_rfl
  · exact List.prefix_append _ _

theorem addRiskLabel_nodup (e : DomainEntry) (l : String)
    (hn : e.riskLabels.Nodup) : (addRiskLabel e l).riskLabels.Nodup := by
  unfold addRiskLabel
  split_ifs with h
  · exact hn
  · exact List.Nodup.append hn (List.nodup_singleton l) (by simpa using h)

theorem addRiskLabel_labels (e : DomainEntry) (l : String) :
    (addRiskLabel e l).riskLabels =
      e.riskLabels ++ (if l ∈ e.riskLabels then [] else [l]) := by
  unfold addRiskLabel
  split_ifs <;> simp

set_option maxHeartbeats 1000000 in
theorem calculateRisk_labels_pre (e : DomainEntry) :
    e.riskLabels <+: (calculateRisk e).riskLabels := by
  simp only [calculateRisk, apply_ite DomainEntry.statusCodeHistory,
    apply_ite DomainEntry.hitCount, apply_ite DomainEntry.highHitDays,
    apply_ite DomainEntry.previousIssuer, apply_ite DomainEntry.responseSize,
    addRiskLabel_statusCodeHistory, addRiskLabel_hitCount, addRiskLabel_highHitDays,
    addRiskLabel_previousIssuer, addRiskLabel_responseSize, ite_self]
  split_ifs <;> simp only [addRiskLabel_labels, List.append_assoc] <;>
    first
      | exact List.prefix_append _ _
      | exact List.prefix_rfl

set_option maxHeartbeats 1000000 in
theorem calculateRisk_labels_nodup (e : DomainEntry) (hn : e.riskLabels.Nodup) :
    (calculateRisk e).riskLabels.Nodup := by
  simp only [calculateRisk, apply_ite DomainEntry.statusCodeHistory,
    apply_ite DomainEntry.hitCount, apply_ite DomainEntry.highHitDays,
    apply_ite DomainEntry.previousIssuer, apply_ite DomainEntry.responseSize,
    addRiskLabel_statusCodeHistory, addRiskLabel_hitCount, addRiskLabel_highHitDays,
    addRiskLabel_previousIssuer, addRiskLabel_responseSize, ite_self]
  split_ifs <;>
    first
      | exact hn
      | exact addRiskLabel_nodup _ _ hn
      | exact addRiskLabel_nodup _ _ (addRiskLabel_nodup _ _ hn)
      | exact addRiskLabel_nodup _ _ (addRiskLabel_nodup _ _ (addRiskLabel_nodup _ _ hn))
      | exact addRiskLabel_nodup _ _ (addRiskLabel_nodup _ _ (addRiskLabel_nodup _ _
          (addRiskLabel_nodup _ _ hn)))

theorem notify_labels_unchanged (now : Time) (st : Tracker) (H k : String)
    (e₁ e₂ : DomainEntry) (h₁ : lookupEntry st k = some e₁)
    (h₂ : lookupEntry (ShouldNotifyDomain now st H).state k = some e₂) :
    e₂.riskLabels = e₁.riskLabels := by
  rcases h' : lookupEntry st (normalizeDomain H) with _ | entry
  · rw [shouldNotify_unseen now st H h'] at h₂
    rcases lookupEntry_insertEntry_cases _ _ _ _ _ h₂ with ⟨hk, _⟩ | ⟨_, he⟩
    · subst hk
      rw [h₁] at h'
      cases h'
    · rw [lookup_eq_of_lookups st k e₁ e₂ h₁ he]
  · by_cases hb : entry.blacklisted
    · rw [shouldNotify_blacklisted now st H entry h' hb] at h₂
      rcases lookupEntry_insertEntry_cases _ _ _ _ _ h₂ with ⟨hk, he⟩ | ⟨_, he⟩
      · subst hk
        rw [he, lookup_eq_of_lookups st _ entry e₁ h' h₁]
      · rw [lookup_eq_of_lookups st k e₁ e₂ h₁ he]
    · have hb' : entry.blacklisted = false := by simpa using hb
      by_cases hcond : sevenDays ≤ now - entry.lastNotified ∧
          dateOf now ≠ dateOf entry.lastNotified
      · rw [shouldNotify_fresh now st H entry h' hb' hcond] at h₂
        rcases lookupEntry_insertEntry_cases _ _ _ _ _ h₂ with ⟨hk, he⟩ | ⟨_, he⟩
        · subst hk
          rw [he, updateDailyHits_riskLabels, lookup_eq_of_lookups st _ entry e₁ h' h₁]
        · rw [lookup_eq_of_lookups st k e₁ e₂ h₁ he]
      · rw [shouldNotify_suppressed now st H entry h' hb' hcond] at h₂
        rcases lookupEntry_insertEntry_cases _ _ _ _ _ h₂ with ⟨hk, he⟩ | ⟨_, he⟩
        · subst hk
          rw [he, updateDailyHits_riskLabels, lookup_eq_of_lookups st _ entry e₁ h' h₁]
        · rw [lookup_eq_of_lookups st k e₁ e₂ h₁ he]

theorem metadata_labels_mono (st : Tracker) (H : String) (a b c d : Int)
    (k : String) (e₁ e₂ : DomainEntry) (h₁ : lookupEntry st k = some e₁)
    (h₂ : lookupEntry (RecordDomainMetadata st H a b c d).state k = some e₂) :
    e₁.riskLabels <+: e₂.riskLabels ∧
    (e₁.riskLabels.Nodup → e₂.riskLabels.Nodup) := by
  rcases h' : lookupEntry st (normalizeDomain H) with _ | entry
  · simp only [RecordDomainMetadata, h'] at h₂
    rw [lookup_eq_of_lookups st k e₁ e₂ h₁ h₂]
    exact ⟨List.prefix_rfl, fun hn => hn⟩
  · simp only [RecordDomainMetadata, h'] at h₂
    rcases lookupEntry_insertEntry_cases _ _ _ _ _ h₂ with ⟨hk, he⟩ | ⟨_, he⟩
    · subst hk
      have hee : e₁ = entry := lookup_eq_of_lookups st _ entry e₁ h' h₁
      subst hee
      rw [he]
      have hgen : ∀ y : DomainEntry, e₁.riskLabels <+: y.riskLabels →
          (e₁.riskLabels.Nodup → y.riskLabels.Nodup) →
          (e₁.riskLabels <+: (calculateRisk y).riskLabels ∧
            (e₁.riskLabels.Nodup → (calculateRisk y).riskLabels.Nodup)) := by
        intro y hy1 hy2
        exact ⟨hy1.trans (calculateRisk_labels_pre y),
          fun hn => calculateRisk_labels_nodup y (hy2 hn)⟩
      refine hgen _ ?_ ?_
      · exact List.prefix_rfl
      · intro hn
        exact hn
    · rw [lookup_eq_of_lookups st k e₁ e₂ h₁ he]
      exact ⟨List.prefix_rfl, fun hn => hn⟩

theorem issuer_labels_mono (st : Tracker) (H iss : String)
    (k : String) (e₁ e₂ : DomainEntry) (h₁ : lookupEntry st k = some e₁)
    (h₂ : lookupEntry (RecordDomainIssuer st H iss).state k = some e₂) :
    e₁.riskLabels <+: e₂.riskLabels ∧
    (e₁.riskLabels.Nodup → e₂.riskLabels.Nodup) := by
  rcases h' : lookupEntry st (normalizeDomain H) with _ | entry
  · simp only [RecordDomainIssuer, h'] at h₂
    rw [lookup_eq_of_lookups st k e₁ e₂ h₁ h₂]
    exact ⟨List.prefix_rfl, fun hn => hn⟩
  · simp only [RecordDomainIssuer, h'] at h₂
    rcases lookupEntry_insertEntry_cases _ _ _ _ _ h₂ with ⟨hk, he⟩ | ⟨_, he⟩
    · subst hk
      have hee : e₁ = entry := lookup_eq_of_lookups st _ entry e₁ h' h₁
      subst hee
      rw [he]
      have hgen : ∀ y : DomainEntry, e₁.riskLabels <+: y.riskLabels →
          (e₁.riskLabels.Nodup → y.riskLabels.Nodup) →
          (e₁.riskLabels <+: (calculateRisk y).riskLabels ∧
            (e₁.riskLabels.Nodup → (calculateRisk y).riskLabels.Nodup)) := by
        intro y hy1 hy2
        exact ⟨hy1.trans (calculateRisk_labels_pre y),
          fun hn => calculateRisk_labels_nodup y (hy2 hn)⟩
      refine hgen _ ?_ ?_
      · split_ifs
        · exact addRiskLabel_pre
            { e₁ with previousIssuer := e₁.certIssuer } "issuer-change"
        · exact List.prefix_rfl
      · intro hn
        split_ifs
        · exact addRiskLabel_nodup
            { e₁ with previousIssuer := e₁.certIssuer } "issuer-change" hn
        · exact hn
    · rw [lookup_eq_of_lookups st k e₁ e₂ h₁ he]
      exact ⟨List.prefix_rfl, fun hn => hn⟩

/-- C10: risk labels are duplicate-free and append-only.  `addRiskLabel`
keeps the list duplicate-free and only ever appends; `calculateRisk` only
extends the list (it never removes a label, even when the triggering
condition no longer holds) and keeps it duplicate-free; the same holds
end-to-end for the entries stored by `RecordDomainMetadata` and
`RecordDomainIssuer`; and `ShouldNotifyDomain` never touches labels at all.
Entries created fresh start with no labels. -/
theorem C10_risk_labels :
    (∀ (e : DomainEntry) (l : String), e.riskLabels.Nodup →
      (addRiskLabel e l).riskLabels.Nodup) ∧
    (∀ (e : DomainEntry) (l : String), e.riskLabels <+: (addRiskLabel e l).riskLabels) ∧
    (∀ e : DomainEntry, e.riskLabels <+: (calculateRisk e).riskLabels) ∧
    (∀ e : DomainEntry, e.riskLabels.Nodup → (calculateRisk e).riskLabels.Nodup) ∧
    (∀ (st : Tracker) (H : String) (a b c d : Int) (k : String) (e₁ e₂ : DomainEntry),
      lookupEntry st k = some e₁ →
      lookupEntry (RecordDomainMetadata st H a b c d).state k = some e₂ →
      e₁.riskLabels <+: e₂.riskLabels ∧ (e₁.riskLabels.Nodup → e₂.riskLabels.Nodup)) ∧
    (∀ (st : Tracker) (H iss k : String) (e₁ e₂ : DomainEntry),
      lookupEntry st k = some e₁ →
      lookupEntry (RecordDomainIssuer st H iss).state k = some e₂ →
      e₁.riskLabels <+: e₂.riskLabels ∧ (e₁.riskLabels.Nodup → e₂.riskLabels.Nodup)) ∧
    (∀ (now : Time) (st : Tracker) (H k : String) (e₁ e₂ : DomainEntry),
      lookupEntry st k = some e₁ →
      lookupEntry (ShouldNotifyDomain now st H).state k = some e₂ →
      e₂.riskLabels = e₁.riskLabels) ∧
    (∀ (d : String) (now : Time), (newDomainEntry d now).riskLabels = [] ∧
      (zeroEntry d now).riskLabels = []) :=
  ⟨fun e l hn => addRiskLabel_nodup e l hn,
    fun e l => addRiskLabel_pre e l,
    fun e => calculateRisk_labels_pre e,
    fun e hn => calculateRisk_labels_nodup e hn,
    fun st H a b c d k e₁ e₂ h₁ h₂ => metadata_labels_mono st H a b c d k e₁ e₂ h₁ h₂,
    fun st H iss k e₁ e₂ h₁ h₂ => issuer_labels_mono st H iss k e₁ e₂ h₁ h₂,
    fun now st H k e₁ e₂ h₁ h₂ => notify_labels_unchanged now st H k e₁ e₂ h₁ h₂,
    fun _ _ => ⟨rfl, rfl⟩⟩

theorem C10_witness :
    (addRiskLabel (newDomainEntry "f.example.com" 0) "wildcard").riskLabels.Nodup ∧
    (addRiskLabel (addRiskLabel (newDomainEntry "f.example.com" 0) "wildcard")
      "wildcard").riskLabels = ["wildcard"] :=
  ⟨C10_risk_labels.1 (newDomainEntry "f.example.com" 0) "wildcard" (by decide),
    by decide⟩

end Crtmon
